import Mathlib

/-!
# Camera path recorder and interactive camera handler (sibr_core)

A shallow embedding of `core/assets/CameraRecorder.{hpp,cpp}` and of the mode
state machine of `core/view/InteractiveCameraHandler.cpp`, with the properties
of the specification proved about it.

Conventions of the embedding.

* `float` values are rational numbers and there is no NaN.  Where the rounding of
  a `float` operation decides what the code does next, the operation is rounded
  to binary32 (`fl32`, round to nearest, ties to even): the difference
  `1.0f - _speed` and the sum `_interp + _speed` of the playback cursor.
  Everywhere else arithmetic is exact, and `1e-6f` is `1/1000000`.
* `std::vector<T>` is `List T`; sizes and indices (`size_t`, `uint`, `int`) are
  natural numbers or integers.  The 32-bit width is written out with an explicit
  `%` where a computation of the source leaves the range on ordinary values
  (`_pos - 1` on the unsigned cursor, the conversion of the `int` index of
  `snapToCamera` to `unsigned int`) and where a value is laid out in a file
  (the `int32` count of the native path format).
* An element access `v[i]` is total: outside the vector it reads a default
  value, and the index that is read is a definition of its own, so that its
  bounds can be stated.
* What `update` takes from outside is passed as parameters: the key queries of
  the tick (`Input`), what a command reads from `std::cin` (`Console`), the
  per-tick update of the sub-controllers (`Controls`) and the files (`World`).
* Functions of the C++ libraries that the source calls (`tan`, the square root
  behind `norm()`, the spherical interpolation of two quaternions) are collected
  in `Libm` and passed as a parameter.
* Logging (`SIBR_LOG`, `SIBR_WRG`, `std::cout`) has no effect on the state and is
  left out.
-/

namespace sibr

/-! ## Vectors, quaternions, cameras -/

/-- Three-component vector (`sibr::Vector3f`). -/
structure Vector3f where
  x : ℚ
  y : ℚ
  z : ℚ
deriving DecidableEq, Repr

/-- Quaternion (`sibr::Quaternionf`), coefficients in the order x, y, z, w. -/
structure Quaternionf where
  x : ℚ
  y : ℚ
  z : ℚ
  w : ℚ
deriving DecidableEq, Repr

/-- The functions of the C++ libraries used by the source: `tan`, the square root
behind `norm()`, and the spherical interpolation of two quaternions, which the
spec names without defining it (the quaternion class is not among the sources). -/
structure Libm where
  slerp : Quaternionf → Quaternionf → ℚ → Quaternionf
  tan : ℚ → ℚ
  sqrt : ℚ → ℚ

/-- Modelled from the spec: the base class `Camera` (core/graphics/Camera.hpp is
not among the sources).  It carries the fields of the spec's CameraSnapshot that
`InputCamera.hpp` does not declare itself (pose, vertical field of view, aspect
ratio, clip planes) and the output tag that `CameraRecorder::use` sets through
`setSavePath` and `setDebugVideo`. -/
structure Camera where
  position : Vector3f
  rotation : Quaternionf
  fovy : ℚ
  aspect : ℚ
  znear : ℚ
  zfar : ℚ
  savePath : String
  debugVideo : Bool
deriving DecidableEq, Repr

/-- Modelled from the spec: the default-constructed `Camera` (Camera.hpp is not
among the sources): at the origin, identity orientation, empty output tag. -/
instance : Inhabited Camera :=
  ⟨{ position := ⟨0, 0, 0⟩, rotation := ⟨0, 0, 0, 1⟩, fovy := 0, aspect := 0,
     znear := 0, zfar := 0, savePath := "", debugVideo := false }⟩

/-- Setter `Camera::setSavePath`. -/
def Camera.setSavePath (c : Camera) (p : String) : Camera := { c with savePath := p }

/-- Setter `Camera::setDebugVideo`. -/
def Camera.setDebugVideo (c : Camera) (b : Bool) : Camera := { c with debugVideo := b }

/-- The constant `1e-6f` of the source. -/
def eps : ℚ := 1 / 1000000

/-- The expression `std::min(std::max(t, 1e-6f), 1.0f - 1e-6f)`. -/
def clampFactor (t : ℚ) : ℚ := min (max t eps) (1 - eps)

/-- Linear interpolation of two scalars. -/
def lerp (a b t : ℚ) : ℚ := a + t * (b - a)

/-- Linear interpolation of two positions. -/
def Vector3f.lerp (a b : Vector3f) (t : ℚ) : Vector3f :=
  ⟨sibr.lerp a.x b.x t, sibr.lerp a.y b.y t, sibr.lerp a.z b.z t⟩

/-- Modelled from the spec: spherical interpolation "along the shortest
great-circle arc between the two quaternions" (the quaternion class is not among
the sources).  The spec names the operation and says nothing of how it is
computed: it is the function `slerp` of the library parameter. -/
def Quaternionf.slerp (M : Libm) (a b : Quaternionf) (t : ℚ) : Quaternionf :=
  M.slerp a b t

/-- Modelled from the spec: `Camera::interpolate` (core/graphics/Camera.cpp is
not among the sources).  The factor is clamped to `[1e-6, 1-1e-6]`; position and
field of view are interpolated linearly, orientation spherically; near/far (and
every field the spec does not say is interpolated) are not taken from either
input: they are those of a default camera. -/
def Camera.interpolate (M : Libm) (a b : Camera) (t : ℚ) : Camera :=
  let k := clampFactor t
  { (default : Camera) with
    position := a.position.lerp b.position k
    rotation := a.rotation.slerp M b.rotation k
    fovy := lerp a.fovy b.fovy k }

/-! ## Rounding to binary32 -/

/-- Rounding of a rational to the nearest integer, a tie going to the even one. -/
def roundHalfEven (x : ℚ) : Int :=
  if x - ⌊x⌋ < 1 / 2 then ⌊x⌋
  else if 1 / 2 < x - ⌊x⌋ then ⌊x⌋ + 1
  else if ⌊x⌋ % 2 = 0 then ⌊x⌋ else ⌊x⌋ + 1

/-- The exponent of the binade of `x` in binary32: `⌊log₂ |x|⌋`, and -126 for the
subnormal numbers and zero. -/
def float32Exponent (x : ℚ) : Int := max (Int.log 2 |x|) (-126)

/-- The `float` nearest to `x` (IEEE 754 binary32, round to nearest, ties to even):
a significand of 24 bits at the exponent of `x`.  The overflow to infinity, from
`2 ^ 128` on, is left out. -/
def fl32 (x : ℚ) : ℚ :=
  (roundHalfEven (x / 2 ^ (float32Exponent x - 23)) : ℚ) * 2 ^ (float32Exponent x - 23)

/-! ## CameraRecorder -/

/-- The private members of `CameraRecorder` (CameraRecorder.hpp). -/
structure CameraRecorder where
  _pos : Nat
  _cameras : List Camera
  _recording : Bool
  _playing : Bool
  _saving : Bool
  _savingPath : String
  _savingVideo : Bool
  _savingVideoPath : String
  _speed : ℚ
  _interp : ℚ
deriving DecidableEq, Repr

namespace CameraRecorder

/-- The constructor.  `_savingVideo` is not in the initialiser list: its value is
indeterminate and is taken as an argument. -/
def create (savingVideo : Bool) : CameraRecorder :=
  { _pos := 0, _cameras := [], _recording := false, _playing := false, _saving := false,
    _savingPath := "", _savingVideo := savingVideo, _savingVideoPath := "",
    _speed := 1, _interp := 0 }

/-- Accessor `isPlaying`. -/
def isPlaying (r : CameraRecorder) : Bool := r._playing

/-- Accessor `isRecording`. -/
def isRecording (r : CameraRecorder) : Bool := r._recording

/-- Accessor `isSaving`. -/
def isSaving (r : CameraRecorder) : Bool := r._saving

/-- Accessor `cams`. -/
def cams (r : CameraRecorder) : List Camera := r._cameras

/-- The method `stop`. -/
def stop (r : CameraRecorder) : CameraRecorder :=
  { r with _recording := false, _playing := false, _pos := 0, _interp := 0 }

/-- The method `reset`. -/
def reset (r : CameraRecorder) : CameraRecorder :=
  { r.stop with _cameras := [] }

/-- The method `playback`. -/
def playback (r : CameraRecorder) : CameraRecorder :=
  { r.stop with _playing := true }

/-- The method `record`. -/
def record (r : CameraRecorder) : CameraRecorder :=
  { r.stop with _recording := true }

/-- The method `saving`. -/
def saving (r : CameraRecorder) (savePath : String) : CameraRecorder :=
  { r with _saving := true, _savingPath := savePath }

/-- The method `savingVideo`. -/
def savingVideo (r : CameraRecorder) (saveVideo : Bool) : CameraRecorder :=
  { r with _savingVideo := saveVideo }

/-- The method `stopSaving`. -/
def stopSaving (r : CameraRecorder) : CameraRecorder :=
  { r with _saving := false, _savingPath := "" }

end CameraRecorder

/-- The stream manipulation `std::setw(8) << std::setfill('0') << n` on an unsigned
value: its decimal digits, padded on the left with zeros to a width of 8 (a
longer number is not truncated). -/
def zeroPad8 (n : Nat) : String :=
  String.mk (List.replicate (8 - (Nat.repr n).length) '0') ++ Nat.repr n

/-- The unsigned 32-bit subtraction `_pos - 1`. -/
def uintPred (pos : Nat) : Nat := (pos + 4294967295) % 4294967296

namespace CameraRecorder

/-- The cursor step at the head of the playing branch of `use`: when
`_interp >= 1.0f - _speed`, the factor is reset and the index advanced.  The
difference `1.0f - _speed` is a `float` subtraction: its result is rounded. -/
def advance (r : CameraRecorder) : CameraRecorder :=
  if r._interp ≥ fl32 (1 - r._speed) then { r with _interp := 0, _pos := r._pos + 1 } else r

/-- The index `std::min(int(_pos), int(_cameras.size()) - 1)`. -/
def startIndex (r : CameraRecorder) : Int :=
  min (r._pos : Int) ((r._cameras.length : Int) - 1)

/-- The index `std::min(int(_pos) + 1, int(_cameras.size()) - 1)`. -/
def nextIndex (r : CameraRecorder) : Int :=
  min ((r._pos : Int) + 1) ((r._cameras.length : Int) - 1)

/-- Element access `_cameras[i]` with an `int` index.  In the playing branch of
`use` both indices are in range (`startIndex_eq`, `nextIndex_eq`, `camAt_eq`). -/
def camAt (r : CameraRecorder) (i : Int) : Camera :=
  r._cameras.getD i.toNat default

/-- The method `use`: the recorder after the call and the camera argument as the
call leaves it. -/
def use (M : Libm) (r : CameraRecorder) (cam : Camera) : CameraRecorder × Camera :=
  if r._recording then
    ({ r with _cameras := r._cameras ++ [cam] }, cam)
  else if r._playing ∧ r._pos < r._cameras.length then
    let r1 := r.advance
    let k := min (max r1._interp eps) (1 - eps)
    let camStart := r1.camAt r1.startIndex
    let camNext := r1.camAt r1.nextIndex
    let c1 := { Camera.interpolate M camStart camNext k with znear := cam.znear, zfar := cam.zfar }
    let r2 := { r1 with _interp := fl32 (r1._interp + r1._speed) }
    let c2 := if r2._saving then
        c1.setSavePath (r2._savingPath ++ "/" ++ zeroPad8 (uintPred r2._pos) ++ ".png")
      else c1
    let c3 := if r2._savingVideo then c2.setDebugVideo true else c2
    let r3 := if r2._pos ≥ r2._cameras.length then r2.stop else r2
    (r3, c3)
  else
    (r, (cam.setSavePath "").setDebugVideo false)

/-- Successive calls of `use`, one for each camera of `cs` in order: the recorder
after the last call and the cameras as the calls left them. -/
def useAll (M : Libm) : CameraRecorder → List Camera → CameraRecorder × List Camera
  | r, [] => (r, [])
  | r, c :: cs =>
    let p := use M r c
    let q := useAll M p.1 cs
    (q.1, p.2 :: q.2)

end CameraRecorder

/-! ## The native path codec (`save` / `load`) -/

/-- The in-memory layout of the platform: the 32-bit pattern of a `float`
(`toBits`, `ofBits`) and the byte order.  The spec leaves both to the writer's
platform ("no explicit normalization"). -/
structure Layout where
  toBits : ℚ → Nat
  ofBits : Nat → ℚ
  bigEndian : Bool

/-- A value is a `float` of the layout when its pattern fits 32 bits and reads
back as the value. -/
def Layout.Representable (L : Layout) (x : ℚ) : Prop :=
  L.toBits x < 4294967296 ∧ L.ofBits (L.toBits x) = x

/-- The four bytes of a 32-bit word, in the byte order of the platform. -/
def wordBytes (be : Bool) (w : Nat) : List Nat :=
  if be then [w / 16777216 % 256, w / 65536 % 256, w / 256 % 256, w % 256]
  else [w % 256, w / 256 % 256, w / 65536 % 256, w / 16777216 % 256]

/-- The 32-bit word made of four bytes, in the byte order of the platform. -/
def bytesWord (be : Bool) (b0 b1 b2 b3 : Nat) : Nat :=
  if be then b3 + 256 * b2 + 65536 * b1 + 16777216 * b0
  else b0 + 256 * b1 + 65536 * b2 + 16777216 * b3

/-- The conversion of a 32-bit pattern to `int32` (two's complement). -/
def toInt32 (w : Nat) : Int :=
  if w % 4294967296 < 2147483648 then (w % 4294967296 : Nat) else (w % 4294967296 : Nat) - 4294967296

/-- Modelled from the spec: `sibr::ByteStream` (core/system/ByteStream.hpp is not
among the sources), on its reading side: the bytes not yet read and the validity
flag that `operator bool` returns. -/
structure ByteStream where
  buffer : List Nat
  valid : Bool
deriving DecidableEq, Repr

namespace ByteStream

/-- Modelled from the spec: extraction of a 32-bit word.  With fewer than four
bytes left nothing is read and the stream becomes invalid. -/
def readWord (be : Bool) (s : ByteStream) : Option Nat × ByteStream :=
  match s.buffer with
  | b0 :: b1 :: b2 :: b3 :: rest => (some (bytesWord be b0 b1 b2 b3), { s with buffer := rest })
  | _ => (none, { s with valid := false })

/-- Modelled from the spec: `stream >> num` for an `int32` whose value before the
extraction is `init`. -/
def readInt32 (L : Layout) (init : Int) (s : ByteStream) : Int × ByteStream :=
  match s.readWord L.bigEndian with
  | (some w, s1) => (toInt32 w, s1)
  | (none, s1) => (init, s1)

/-- Modelled from the spec: extraction of a `float` whose value before the
extraction is `init`. -/
def readFloat (L : Layout) (init : ℚ) (s : ByteStream) : ℚ × ByteStream :=
  match s.readWord L.bigEndian with
  | (some w, s1) => (L.ofBits w, s1)
  | (none, s1) => (init, s1)

end ByteStream

/-- Modelled from the spec: insertion of a `float` into the stream. -/
def floatBytes (L : Layout) (x : ℚ) : List Nat := wordBytes L.bigEndian (L.toBits x % 4294967296)

/-- The scalar fields of a camera record, in the order of the layout. -/
def Camera.fields (c : Camera) : List ℚ :=
  [c.position.x, c.position.y, c.position.z,
   c.rotation.x, c.rotation.y, c.rotation.z, c.rotation.w,
   c.fovy, c.aspect, c.znear, c.zfar]

/-- Modelled from the spec: `stream << cam` (the camera serialisation is not among
the sources): one fixed-layout record.  The record holds the fields that a
`Camera` carries, in the spec's order: position, orientation, fov, aspect,
near/far.  (The resolution and distortion fields of the spec's record belong to
`InputCamera`; the recorder stores `Camera` values.) -/
def cameraBytes (L : Layout) (c : Camera) : List Nat :=
  (c.fields.map (floatBytes L)).flatten

/-- Modelled from the spec: `stream >> cam` into a default-constructed camera. -/
def ByteStream.readCamera (L : Layout) (s : ByteStream) : Camera × ByteStream :=
  let d : Camera := default
  let (px, s) := s.readFloat L d.position.x
  let (py, s) := s.readFloat L d.position.y
  let (pz, s) := s.readFloat L d.position.z
  let (qx, s) := s.readFloat L d.rotation.x
  let (qy, s) := s.readFloat L d.rotation.y
  let (qz, s) := s.readFloat L d.rotation.z
  let (qw, s) := s.readFloat L d.rotation.w
  let (fovy, s) := s.readFloat L d.fovy
  let (aspect, s) := s.readFloat L d.aspect
  let (znear, s) := s.readFloat L d.znear
  let (zfar, s) := s.readFloat L d.zfar
  ({ d with position := ⟨px, py, pz⟩, rotation := ⟨qx, qy, qz, qw⟩, fovy := fovy,
            aspect := aspect, znear := znear, zfar := zfar }, s)

/-- The loop `while (num > 0) { Camera cam; stream >> cam; _cameras.emplace_back(cam); --num; }`
of `load`, for `n` remaining iterations. -/
def ByteStream.readCameras (L : Layout) : Nat → ByteStream → List Camera × ByteStream
  | 0, s => ([], s)
  | n + 1, s =>
    let p := s.readCamera L
    let q := ByteStream.readCameras L n p.2
    (p.1 :: q.1, q.2)

namespace CameraRecorder

/-- The method `save`: the bytes handed to `stream.saveToFile`.  The count is
`(int32)_cameras.size()`. -/
def save (L : Layout) (r : CameraRecorder) : List Nat :=
  wordBytes L.bigEndian (r._cameras.length % 4294967296)
    ++ (r._cameras.map (cameraBytes L)).flatten

/-- The method `load`.  `file` is the content of the file, `none` when
`stream.load(filename)` fails.  The result is the returned boolean and the
recorder after the call. -/
def load (L : Layout) (file : Option (List Nat)) (r : CameraRecorder) : Bool × CameraRecorder :=
  let r := r.reset
  match file with
  | none => (false, r)
  | some bytes =>
    let p := ByteStream.readInt32 L 0 { buffer := bytes, valid := true }
    let q := ByteStream.readCameras L p.1.toNat p.2
    (q.2.valid, { r with _cameras := r._cameras ++ q.1 })

end CameraRecorder

/-- Two cameras hold the same snapshot: same position, orientation, field of view,
aspect ratio and near/far distances. -/
def Camera.SameSnapshot (a b : Camera) : Prop :=
  a.position = b.position ∧ a.rotation = b.rotation ∧ a.fovy = b.fovy ∧ a.aspect = b.aspect
    ∧ a.znear = b.znear ∧ a.zfar = b.zfar

/-- What `load` makes of a stored camera: the snapshot read into a
default-constructed camera. -/
def Camera.stored (c : Camera) : Camera :=
  { (default : Camera) with position := c.position, rotation := c.rotation, fovy := c.fovy,
                            aspect := c.aspect, znear := c.znear, zfar := c.zfar }

/-! ## InputCamera -/

/-- The class `InputCamera` (InputCamera.hpp): a `Camera` with the members
`_focal`, `_k1`, `_k2`, `_w`, `_h`, `_id`, `_name`, `_active`. -/
structure InputCamera extends Camera where
  _focal : ℚ
  _k1 : ℚ
  _k2 : ℚ
  _w : Nat
  _h : Nat
  _id : Nat
  _name : String
  _active : Bool
deriving DecidableEq, Repr

/-- The default constructor of `InputCamera`. -/
instance : Inhabited InputCamera :=
  ⟨{ toCamera := default, _focal := 0, _k1 := 0, _k2 := 0, _w := 0, _h := 0, _id := 0,
     _name := "", _active := true }⟩

/-- Accessor `isActive`. -/
def InputCamera.isActive (c : InputCamera) : Bool := c._active

/-- The method `size(w, h)`: new image dimensions. -/
def InputCamera.size (c : InputCamera) (w h : Nat) : InputCamera := { c with _w := w, _h := h }

/-- Difference of two vectors. -/
def Vector3f.sub (a b : Vector3f) : Vector3f := ⟨a.x - b.x, a.y - b.y, a.z - b.z⟩

/-- The Euclidean norm `norm()`: the square root of the sum of the squares. -/
def Vector3f.norm (M : Libm) (v : Vector3f) : ℚ := M.sqrt (v.x * v.x + v.y * v.y + v.z * v.z)

/-! ## Bundle export (`saveAsBundle`) -/

/-- A 3×3 matrix (`sibr::Matrix3f`); `mij` is the coefficient of row `i`, column `j`. -/
structure Matrix3f where
  m00 : ℚ
  m01 : ℚ
  m02 : ℚ
  m10 : ℚ
  m11 : ℚ
  m12 : ℚ
  m20 : ℚ
  m21 : ℚ
  m22 : ℚ
deriving DecidableEq, Repr

/-- The rotation matrix of a quaternion (`toRotationMatrix()`). -/
def Quaternionf.toRotationMatrix (q : Quaternionf) : Matrix3f :=
  { m00 := 1 - (2 * q.y * q.y + 2 * q.z * q.z)
    m01 := 2 * q.x * q.y - 2 * q.z * q.w
    m02 := 2 * q.x * q.z + 2 * q.y * q.w
    m10 := 2 * q.x * q.y + 2 * q.z * q.w
    m11 := 1 - (2 * q.x * q.x + 2 * q.z * q.z)
    m12 := 2 * q.y * q.z - 2 * q.x * q.w
    m20 := 2 * q.x * q.z - 2 * q.y * q.w
    m21 := 2 * q.y * q.z + 2 * q.x * q.w
    m22 := 1 - (2 * q.x * q.x + 2 * q.y * q.y) }

/-- The transposed matrix. -/
def Matrix3f.transpose (m : Matrix3f) : Matrix3f :=
  { m00 := m.m00, m01 := m.m10, m02 := m.m20,
    m10 := m.m01, m11 := m.m11, m12 := m.m21,
    m20 := m.m02, m21 := m.m12, m22 := m.m22 }

/-- The opposite matrix. -/
def Matrix3f.neg (m : Matrix3f) : Matrix3f :=
  { m00 := -m.m00, m01 := -m.m01, m02 := -m.m02,
    m10 := -m.m10, m11 := -m.m11, m12 := -m.m12,
    m20 := -m.m20, m21 := -m.m21, m22 := -m.m22 }

/-- The product of a matrix and a vector. -/
def Matrix3f.mulVec (m : Matrix3f) (v : Vector3f) : Vector3f :=
  ⟨m.m00 * v.x + m.m01 * v.y + m.m02 * v.z,
   m.m10 * v.x + m.m11 * v.y + m.m12 * v.z,
   m.m20 * v.x + m.m21 * v.y + m.m22 * v.z⟩

/-- The array `m[15]` that `saveAsBundle` fills for one camera. -/
def bundleRecord (M : Libm) (height : Int) (cam : Camera) : List ℚ :=
  let m1 := cam.rotation.toRotationMatrix
  let pos := (m1.transpose.neg).mulVec cam.position
  [1 / 2 * (height : ℚ) / M.tan (cam.fovy / 2), 0, 0,
   m1.m00, m1.m10, m1.m20,
   m1.m01, m1.m11, m1.m21,
   m1.m02, m1.m12, m1.m22,
   pos.x, pos.y, pos.z]

/-- The cameras visited by the loop `for (int i = 0; i < _cameras.size(); i += step)`,
from index `i` on; `fuel` bounds the number of iterations. -/
def bundleLoop (step : Nat) (cams : List Camera) : Nat → Nat → List Camera
  | 0, _ => []
  | fuel + 1, i =>
    if h : i < cams.length then cams[i] :: bundleLoop step cams fuel (i + step) else []

/-- What `saveAsBundle` writes after the banner line: the count of line 2 and the
records of 15 values, one per camera visited. -/
structure BundleOutput where
  size : Int
  records : List (List ℚ)
deriving DecidableEq, Repr

/-- The method `saveAsBundle(filePath, height, step)`.  `writable` tells whether the
output stream is good.  The result is `none` when nothing is written: the file
cannot be written, or the path is empty.  The stride is a positive number (the
source divides by it); for `step = 0` the result is `none` as well. -/
def CameraRecorder.saveAsBundle (M : Libm) (writable : Bool) (height : Int) (step : Nat)
    (r : CameraRecorder) : Option BundleOutput :=
  if !writable then none
  else if r._cameras.isEmpty then none
  else if step = 0 then none
  else
    some { size := ((r._cameras.length / step : Nat) : Int)
           records := (bundleLoop step r._cameras r._cameras.length 0).map (bundleRecord M height) }

/-! ## FRIBR export (`saveAsFRIBRBundle`) -/

/-- The product of two matrices. -/
def Matrix3f.mul (a b : Matrix3f) : Matrix3f :=
  { m00 := a.m00 * b.m00 + a.m01 * b.m10 + a.m02 * b.m20
    m01 := a.m00 * b.m01 + a.m01 * b.m11 + a.m02 * b.m21
    m02 := a.m00 * b.m02 + a.m01 * b.m12 + a.m02 * b.m22
    m10 := a.m10 * b.m00 + a.m11 * b.m10 + a.m12 * b.m20
    m11 := a.m10 * b.m01 + a.m11 * b.m11 + a.m12 * b.m21
    m12 := a.m10 * b.m02 + a.m11 * b.m12 + a.m12 * b.m22
    m20 := a.m20 * b.m00 + a.m21 * b.m10 + a.m22 * b.m20
    m21 := a.m20 * b.m01 + a.m21 * b.m11 + a.m22 * b.m21
    m22 := a.m20 * b.m02 + a.m21 * b.m12 + a.m22 * b.m22 }

/-- The opposite vector. -/
def Vector3f.neg (v : Vector3f) : Vector3f := ⟨-v.x, -v.y, -v.z⟩

/-- The matrix that `saveAsFRIBRBundle` assigns to both `converter` and `from_cv`:
rows (1, 0, 0), (0, -1, 0), (0, 0, -1). -/
def fribrConverter : Matrix3f :=
  { m00 := 1, m01 := 0, m02 := 0, m10 := 0, m11 := -1, m12 := 0, m20 := 0, m21 := 0, m22 := -1 }

/-- The array `m[15]` that `saveAsFRIBRBundle` fills for one camera. -/
def fribrRecord (M : Libm) (height : Int) (cam : Camera) : List ℚ :=
  let converter := fribrConverter
  let from_cv := fribrConverter
  let orientation := cam.rotation.toRotationMatrix
  let position := cam.position
  let rotation_cv := (converter.transpose.mul orientation.transpose).mul converter
  let rotation_bundler := from_cv.mul rotation_cv
  let position_cv := converter.transpose.mulVec position
  let translation_cv := (rotation_cv.mulVec position_cv).neg
  let pos := from_cv.mulVec translation_cv
  let m1 := rotation_bundler.transpose
  [1 / 2 * (height : ℚ) / M.tan (cam.fovy / 2), 0, 0,
   m1.m00, m1.m10, m1.m20,
   m1.m01, m1.m11, m1.m21,
   m1.m02, m1.m12, m1.m22,
   pos.x, pos.y, pos.z]

/-- What `saveAsFRIBRBundle` writes: the count and the records of `path.rd.out`,
the lines of `list.txt` (image name and focal), and the names of the placeholder
images of `width × height` pixels written under `visualize/`. -/
structure FRIBROutput where
  size : Int
  records : List (List ℚ)
  listLines : List (String × ℚ)
  images : List (String × Int × Int)
deriving DecidableEq, Repr

/-- The cameras of the path with their indices, as the loop
`for (int i = 0; i < _cameras.size(); ++i)` visits them, from index `i` on. -/
def indexedFrom : Nat → List Camera → List (Nat × Camera)
  | _, [] => []
  | i, c :: cs => (i, c) :: indexedFrom (i + 1) cs

/-- The method `saveAsFRIBRBundle(dirPath, width, height)`.  `writable` tells whether
both output streams are good; the result is `none` when they are not.  The image
name `sibr::intToString<8>(i) + ".jpg"` is the index padded to 8 digits. -/
def CameraRecorder.saveAsFRIBRBundle (M : Libm) (writable : Bool) (width height : Int)
    (r : CameraRecorder) : Option FRIBROutput :=
  if !writable then none
  else
    some { size := (r._cameras.length : Int)
           records := r._cameras.map (fribrRecord M height)
           listLines := (indexedFrom 0 r._cameras).map (fun p =>
             ("visualize/" ++ zeroPad8 p.1 ++ ".jpg",
               1 / 2 * (height : ℚ) / M.tan (p.2.fovy / 2)))
           images := (indexedFrom 0 r._cameras).map (fun p =>
             (zeroPad8 p.1 ++ ".jpg", width, height)) }

/-! ## Loading by extension (`loadBundle`, `safeLoad`) -/

/-- The text of a bundle file as the extraction operators of `loadBundle` see it:
the count at the head of the second line (a natural number) and the numeric
values that follow that line. -/
structure BundleText where
  numImages : Nat
  values : List ℚ
deriving DecidableEq, Repr

/-- What the recorder's loaders take from outside: the platform layout,
`Path::extension()`, the constructor `InputCamera(id, w, h, m, active)` for the 15
values of a bundle camera (InputCamera.cpp is not among the sources), and the
files: their bytes for `ByteStream::load`, their text for `std::ifstream`, `none`
for a file that cannot be opened. -/
structure World where
  layout : Layout
  extension : String → String
  bundleCamera : Nat → Int → Int → List ℚ → Bool → InputCamera
  binaryFile : String → Option (List Nat)
  bundleFile : String → Option BundleText

namespace CameraRecorder

/-- The method `loadBundle(filePath, w, h)`.  When the file cannot be opened every
extraction fails and `numImages` stays 0 (modelled from the spec: `SIBR_ASSERT`,
whose definition is not among the sources, does not abort).  A value that the file
does not provide is read as 0. -/
def loadBundle (W : World) (filePath : String) (w h : Int) (r : CameraRecorder) :
    CameraRecorder :=
  let numImages := match W.bundleFile filePath with
    | some t => t.numImages
    | none => 0
  let values := match W.bundleFile filePath with
    | some t => t.values
    | none => []
  let cameras : List InputCamera := (List.range numImages).map (fun i =>
    let m := (List.range 15).map (fun k => values.getD (15 * i + k) 0)
    { W.bundleCamera i w h m true with znear := 1 / 5, zfar := 250 })
  { r with _cameras := r._cameras ++ cameras.map (fun c => c.toCamera) }

/-- The method `safeLoad(filename, w, h)`: the returned boolean and the recorder
after the call. -/
def safeLoad (W : World) (filename : String) (w h : Int) (r : CameraRecorder) :
    Bool × CameraRecorder :=
  if W.extension filename = ".out" then (true, r.loadBundle W filename w h)
  else if W.extension filename = ".path" then r.load W.layout (W.binaryFile filename)
  else (false, r)

end CameraRecorder

/-! ## InteractiveCameraHandler -/

/-- The enumeration `InteractionMode`. -/
inductive InteractionMode where
  | FPS
  | ORBIT
  | INTERPOLATION
  | TRACKBALL
deriving DecidableEq, Repr

/-- Modelled from the spec: the viewport (core/graphics/Viewport.hpp is not among
the sources), by its final width and height; it is empty when both are 0. -/
structure Viewport where
  finalWidth : ℚ
  finalHeight : ℚ
deriving DecidableEq, Repr

/-- Modelled from the spec: `Viewport::isEmpty`. -/
def Viewport.isEmpty (v : Viewport) : Bool := v.finalWidth == 0 && v.finalHeight == 0

/-- Modelled from the spec: the raycasting service (core/raycaster/Raycaster.hpp is
not among the sources): the hit distance of the ray cast from a camera along its
view direction, `none` when the ray hits nothing. -/
structure Raycaster where
  intersect : InputCamera → Option ℚ

/-- Modelled from the spec: the orbit sub-controller (not among the sources): its
internal representation is derived from a snapshot by `fromCamera`. -/
structure Orbit where
  camera : InputCamera
deriving DecidableEq, Repr

/-- Modelled from the spec: `Orbit::fromCamera`. -/
def Orbit.fromCamera (_ : Orbit) (cam : InputCamera) (_ : Option Raycaster) : Orbit :=
  { camera := cam }

/-- Modelled from the spec: the first-person sub-controller (not among the
sources): the snapshot it was synchronised from and its speed. -/
structure FPSCamera where
  camera : InputCamera
  speed : ℚ
deriving DecidableEq, Repr

/-- Modelled from the spec: `FPSCamera::fromCamera`. -/
def FPSCamera.fromCamera (f : FPSCamera) (cam : InputCamera) : FPSCamera :=
  { f with camera := cam }

/-- Modelled from the spec: the trackball sub-controller (not among the sources):
the snapshot, viewport and pivot radius it was synchronised from, and the
`drawThis` flag of its visual guides. -/
structure TrackBall where
  camera : InputCamera
  viewport : Viewport
  radius : ℚ
  drawThis : Bool
deriving DecidableEq, Repr

/-- Modelled from the spec: `TrackBall::fromCamera`. -/
def TrackBall.fromCamera (t : TrackBall) (cam : InputCamera) (v : Viewport) (radius : ℚ) :
    TrackBall :=
  { t with camera := cam, viewport := v, radius := radius }

/-- The members of `InteractiveCameraHandler` that InteractiveCameraHandler.cpp
reads and writes. -/
structure InteractiveCameraHandler where
  _currentMode : InteractionMode
  _shouldSmooth : Bool
  _startCam : Nat
  _interpFactor : Nat
  _shouldSnap : Bool
  _supportRecording : Bool
  _radius : ℚ
  _currentCamId : Int
  _saveFrame : Bool
  _viewport : Viewport
  _triggerCameraUpdate : Bool
  _isSetup : Bool
  _trackball : TrackBall
  _orbit : Orbit
  _fpsCamera : FPSCamera
  _raycaster : Option Raycaster
  _currentCamera : InputCamera
  _previousCamera : InputCamera
  _interpPath : List InputCamera
  _cameraRecorder : CameraRecorder

/-- Modelled from the spec: the default value of the parameter `updateResolution`
in the declaration of `fromCamera` (InteractiveCameraHandler.hpp is not among the
sources).  The recompute that the spec has `setup` defer is the one `fromCamera`
does under this flag, and `setup` leaves the argument out. -/
def updateResolutionDefault : Bool := true

/-- The conversion of an `int` to `unsigned int`. -/
def intToUnsigned (x : Int) : Nat := (x % 4294967296).toNat

/-- Modelled from the spec: `Camera::transform(t)` with the transform of another
camera (Camera.hpp is not among the sources): the position and the orientation of
that camera are adopted, everything else is kept. -/
def InputCamera.adoptTransform (c target : InputCamera) : InputCamera :=
  { c with position := target.position, rotation := target.rotation }

/-- The constant `SIBR_INTERPOLATE_FRAMES`. -/
def SIBR_INTERPOLATE_FRAMES : Nat := 30

/-- The constant `IBRVIEW_SMOOTHCAM_POWER` (`0.1f`). -/
def IBRVIEW_SMOOTHCAM_POWER : ℚ := 1 / 10

/-- The keys that `update` tests. -/
inductive Key where
  | B
  | V
  | Y
  | P
  | C
  | Space
  | LeftShift
  | LeftAlt
  | LeftControl
  | RightAlt
deriving DecidableEq, Repr

/-- Modelled from the spec: the input of a tick (core/system/Input.hpp is not among
the sources), by the two queries `update` makes of `input.key()`. -/
structure Input where
  isReleased : Key → Bool
  isActivated : Key → Bool

/-- What a command of `update` reads from `std::cin`: the line taken by
`std::getline` and the two integers extracted after it by the load command. -/
structure Console where
  line : String
  w : Int
  h : Int
deriving DecidableEq, Repr

/-- Modelled from the spec: the per-tick `update` of the three sub-controllers and
`FPSCamera::snap` (their sources are not among the files). -/
structure Controls where
  orbitUpdate : Orbit → Input → Option Raycaster → Orbit
  trackballUpdate : TrackBall → Input → Viewport → Option Raycaster → TrackBall
  fpsUpdate : FPSCamera → Input → ℚ → FPSCamera
  fpsSnap : FPSCamera → List InputCamera → FPSCamera

/-- The conversion of a non-negative `float` to `uint` (truncation). -/
def floatToUint (x : ℚ) : Nat := (Int.floor x).toNat

namespace InteractiveCameraHandler

/-- The method `fromCamera(cam, interpolate, updateResolution)`. -/
def fromCamera (s : InteractiveCameraHandler) (cam : InputCamera) (interpolate : Bool)
    (updateResolution : Bool) : InteractiveCameraHandler :=
  let s := { s with _isSetup := true }
  let p : InteractiveCameraHandler × InputCamera :=
    if updateResolution then
      if s._viewport.isEmpty then ({ s with _triggerCameraUpdate := true }, cam)
      else
        let w := s._viewport.finalWidth
        let h := s._viewport.finalHeight
        (s, { cam.size (floatToUint w) (floatToUint h) with aspect := w / h })
    else (s, cam)
  let s := p.1
  let idealCam := p.2
  let s := { s with _orbit := s._orbit.fromCamera idealCam s._raycaster,
                    _fpsCamera := s._fpsCamera.fromCamera idealCam }
  let s := match s._raycaster with
    | some rc =>
      match rc.intersect idealCam with
      | some dist => { s with _radius := dist }
      | none => s
    | none => s
  let s := { s with _trackball := s._trackball.fromCamera idealCam s._viewport s._radius }
  let s := { s with _currentCamera := idealCam }
  if !interpolate then { s with _previousCamera := s._currentCamera } else s

/-- The method `switchMode(mode)`. -/
def switchMode (s : InteractiveCameraHandler) (mode : InteractionMode) :
    InteractiveCameraHandler :=
  if s._currentMode = mode then s
  else
    let s := { s with _currentMode := mode }
    let s := s.fromCamera s._currentCamera s._shouldSmooth updateResolutionDefault
    { s with _interpFactor := 0 }

/-- The loop of `findNearestCamera` over the cameras from index `i` on, with the
running `selectedCam` and `dist`. -/
def findNearestLoop (M : Libm) (currentPos : Vector3f) :
    List InputCamera → Nat → Int × ℚ → Int × ℚ
  | [], _, acc => acc
  | c :: cs, i, acc =>
    if c.isActive = false then findNearestLoop M currentPos cs (i + 1) acc
    else
      let d := (c.position.sub currentPos).norm M
      if d < acc.2 then findNearestLoop M currentPos cs (i + 1) ((i : Int), d)
      else findNearestLoop M currentPos cs (i + 1) acc

/-- The method `findNearestCamera(inputCameras)`. -/
def findNearestCamera (M : Libm) (s : InteractiveCameraHandler)
    (inputCameras : List InputCamera) : Int :=
  let currentPos := s._currentCamera.position
  match inputCameras with
  | [] => -1
  | c0 :: rest =>
    (findNearestLoop M currentPos rest 1 (0, (c0.position.sub currentPos).norm M)).1

/-- The loop of `setupInterpolationPath` over the cameras still to visit: each
active camera is pushed at the back of the path built so far. -/
def interpPathLoop : List InputCamera → List InputCamera → List InputCamera
  | [], path => path
  | c :: cs, path => if c.isActive then interpPathLoop cs (path ++ [c]) else interpPathLoop cs path

/-- The method `setupInterpolationPath(cameras)`: `_interpPath.clear()`, then the
loop. -/
def setupInterpolationPath (s : InteractiveCameraHandler) (cameras : List InputCamera) :
    InteractiveCameraHandler :=
  { s with _interpPath := interpPathLoop cameras [] }

/-- The two tests at the head of `interpolate()`: after the last frame of a
segment (`_interpFactor == SIBR_INTERPOLATE_FRAMES - 1`) the factor is reset and
the segment advanced; at the last camera (`_startCam >= _interpPath.size() - 1`)
the traversal restarts. -/
def interpAdvance (s : InteractiveCameraHandler) : InteractiveCameraHandler :=
  let s := if s._interpFactor = SIBR_INTERPOLATE_FRAMES - 1 then
      { s with _interpFactor := 0, _startCam := s._startCam + 1 }
    else s
  if s._startCam ≥ s._interpPath.length - 1 then { s with _interpFactor := 0, _startCam := 0 }
  else s

/-- The factor `k` of `interpolate()`:
`std::min(std::max(_interpFactor / (float)SIBR_INTERPOLATE_FRAMES, 1e-6f), 1.0f - 1e-6f)`. -/
def interpK (s : InteractiveCameraHandler) : ℚ :=
  min (max ((s._interpFactor : ℚ) / (SIBR_INTERPOLATE_FRAMES : ℚ)) eps) (1 - eps)

/-- The method `interpolate()`.  The element accesses `_interpPath[_startCam]` and
`_interpPath[_startCam + 1]` are read with a default outside the path; the
assignment of the interpolated `Camera` to the member `_currentCamera` replaces
its camera part (modelled from the spec: the conversion is not among the
sources). -/
def interpolate (M : Libm) (s : InteractiveCameraHandler) : InteractiveCameraHandler :=
  if s._interpPath.isEmpty then s
  else
    let s := s.interpAdvance
    let k := s.interpK
    let camStart := s._interpPath.getD s._startCam default
    let camNext := s._interpPath.getD (s._startCam + 1) default
    let cur : InputCamera :=
      { s._currentCamera with
        toCamera := Camera.interpolate M camStart.toCamera camNext.toCamera k }
    let cur : InputCamera :=
      { cur with aspect := s._viewport.finalWidth / s._viewport.finalHeight }
    { s with _currentCamera := cur, _interpFactor := s._interpFactor + 1 }

/-- The index `nearestCam` of `snapToCamera(i)`:
`(i == -1 ? findNearestCamera(_interpPath) : std::min(i, int(_interpPath.size()) - 1))`
converted to `unsigned int`. -/
def snapIndex (M : Libm) (s : InteractiveCameraHandler) (i : Int) : Nat :=
  intToUnsigned
    (if i = -1 then s.findNearestCamera M s._interpPath
     else min i ((s._interpPath.length : Int) - 1))

/-- The method `snapToCamera(i)`.  The element access `_interpPath[nearestCam]` is
read with a default outside the path. -/
def snapToCamera (M : Libm) (s : InteractiveCameraHandler) (i : Int) :
    InteractiveCameraHandler :=
  if s._interpPath.isEmpty then s
  else
    let nearestCam := s.snapIndex M i
    let camCopy := s._currentCamera
    let camCopy := camCopy.adoptTransform (s._interpPath.getD nearestCam default)
    s.fromCamera camCopy true updateResolutionDefault

/-- The method `setup(cam, viewport, raycaster)`. -/
def setup (s : InteractiveCameraHandler) (cam : InputCamera) (viewport : Viewport)
    (raycaster : Option Raycaster) : InteractiveCameraHandler :=
  let s := { s with _raycaster := raycaster, _viewport := viewport }
  s.fromCamera cam false updateResolutionDefault

/-- Modelled from the spec: `switchSnapping()` (defined in
InteractiveCameraHandler.hpp, which is not among the sources): the snapping flag is
toggled. -/
def switchSnapping (s : InteractiveCameraHandler) : InteractiveCameraHandler :=
  { s with _shouldSnap := !s._shouldSnap }

/-- The head of `update`: a non-empty `viewport` is stored, and a deferred camera
update runs once the stored viewport is not empty. -/
def updateViewport (s : InteractiveCameraHandler) (viewport : Viewport) :
    InteractiveCameraHandler :=
  let s := if !viewport.isEmpty then { s with _viewport := viewport } else s
  if s._triggerCameraUpdate && !s._viewport.isEmpty then
    let s := s.fromCamera s._currentCamera false true
    { s with _triggerCameraUpdate := false }
  else s

/-- The load command of `update` (LeftShift + C) on the recorder: `reset()`, then
`loadBundle(filename, w, h)` when `boost::filesystem::extension(filename)` is
".out" and `load(filename)` otherwise, then `playback()`. -/
def loadCommand (W : World) (con : Console) (r : CameraRecorder) : CameraRecorder :=
  let r := r.reset
  let r := if W.extension con.line = ".out" then r.loadBundle W con.line con.w con.h
    else (r.load W.layout (W.binaryFile con.line)).2
  r.playback

/-- The recorder commands of `update`, tested when `_supportRecording` is set.
`save` and `saveAsBundle` write files and leave the recorder as it is. -/
def recorderCommands (W : World) (input : Input) (con : Console)
    (s : InteractiveCameraHandler) : InteractiveCameraHandler :=
  if input.isActivated Key.LeftShift
      && (input.isActivated Key.LeftAlt || input.isActivated Key.LeftControl)
      && input.isReleased Key.C then
    let s := { s with _saveFrame := !s._saveFrame }
    if s._saveFrame then
      if !con.line.isEmpty then
        { s with _cameraRecorder := s._cameraRecorder.saving (con.line ++ "/") }
      else
        { s with _cameraRecorder := s._cameraRecorder.stopSaving, _saveFrame := false }
    else { s with _cameraRecorder := s._cameraRecorder.stopSaving }
  else if input.isActivated Key.LeftShift && input.isReleased Key.C then
    { s with _cameraRecorder := loadCommand W con s._cameraRecorder }
  else if input.isActivated Key.LeftControl && input.isReleased Key.C then
    { s with _cameraRecorder := s._cameraRecorder.stop }
  else if input.isActivated Key.LeftAlt && input.isReleased Key.C then
    { s with _cameraRecorder := s._cameraRecorder.reset.record }
  else if input.isActivated Key.RightAlt && input.isReleased Key.C then
    { s with _cameraRecorder := s._cameraRecorder.playback }
  else if input.isReleased Key.C then
    { s with _cameraRecorder := s._cameraRecorder.playback }
  else s

/-- The chain of key tests of `update`. -/
def keyCommands (M : Libm) (W : World) (input : Input) (con : Console)
    (s : InteractiveCameraHandler) : InteractiveCameraHandler :=
  if input.isReleased Key.B then
    s.switchMode (if s._currentMode = InteractionMode.ORBIT then InteractionMode.FPS
      else InteractionMode.ORBIT)
  else if input.isReleased Key.V then
    s.switchMode (if s._currentMode = InteractionMode.INTERPOLATION then InteractionMode.FPS
      else InteractionMode.INTERPOLATION)
  else if input.isActivated Key.LeftShift && input.isReleased Key.Y then
    if s._currentMode = InteractionMode.TRACKBALL then
      { s with _trackball := { s._trackball with drawThis := !s._trackball.drawThis } }
    else s
  else if input.isReleased Key.Y then
    s.switchMode (if s._currentMode = InteractionMode.TRACKBALL then InteractionMode.FPS
      else InteractionMode.TRACKBALL)
  else if input.isReleased Key.Space then s.switchSnapping
  else if input.isReleased Key.P then s.snapToCamera M (-1)
  else if s._supportRecording then s.recorderCommands W input con
  else s

/-- The mode step of `update`, skipped while the recorder is playing: the
sub-controller of the current mode produces the canonical camera, which is then
blended with the previous camera when smoothing is on and the mode is not
INTERPOLATION.  The assignment of the blended `Camera` to `_currentCamera`
replaces its camera part, as in `interpolate`. -/
def modeUpdate (M : Libm) (K : Controls) (input : Input) (deltaTime : ℚ)
    (s : InteractiveCameraHandler) : InteractiveCameraHandler :=
  if !s._cameraRecorder.isPlaying then
    let s := match s._currentMode with
      | InteractionMode.ORBIT =>
        let o := K.orbitUpdate s._orbit input s._raycaster
        { s with _orbit := o, _currentCamera := o.camera }
      | InteractionMode.INTERPOLATION => s.interpolate M
      | InteractionMode.TRACKBALL =>
        let t := K.trackballUpdate s._trackball input s._viewport s._raycaster
        { s with _trackball := t, _currentCamera := t.camera }
      | InteractionMode.FPS =>
        let f := K.fpsUpdate s._fpsCamera input deltaTime
        let f := if s._shouldSnap then K.fpsSnap f s._interpPath else f
        { s with _fpsCamera := f, _currentCamera := f.camera }
    if s._shouldSmooth && s._currentMode != InteractionMode.INTERPOLATION then
      { s with _currentCamera :=
          { s._currentCamera with
            toCamera := Camera.interpolate M s._previousCamera.toCamera
              s._currentCamera.toCamera IBRVIEW_SMOOTHCAM_POWER } }
    else s
  else s

/-- The part of `update` that precedes `_cameraRecorder.use(_currentCamera)`. -/
def updateBeforeUse (M : Libm) (W : World) (K : Controls) (input : Input) (con : Console)
    (deltaTime : ℚ) (viewport : Viewport) (s : InteractiveCameraHandler) :
    InteractiveCameraHandler :=
  ((s.updateViewport viewport).keyCommands M W input con).modeUpdate M K input deltaTime

/-- The call `_cameraRecorder.use(_currentCamera)`: the recorder is stepped and the
camera part of `_currentCamera`, passed by reference, is left as `use` leaves it. -/
def applyUse (M : Libm) (s : InteractiveCameraHandler) : InteractiveCameraHandler :=
  let p := s._cameraRecorder.use M s._currentCamera.toCamera
  { s with _cameraRecorder := p.1, _currentCamera := { s._currentCamera with toCamera := p.2 } }

/-- The method `update(input, deltaTime, viewport)`; `con` is what the commands of
this tick read from `std::cin`. -/
def update (M : Libm) (W : World) (K : Controls) (input : Input) (con : Console)
    (deltaTime : ℚ) (viewport : Viewport) (s : InteractiveCameraHandler) :
    InteractiveCameraHandler :=
  let s := s.updateBeforeUse M W K input con deltaTime viewport
  let s := s.applyUse M
  { s with _previousCamera := s._currentCamera }

end InteractiveCameraHandler

/-! ## Sample data -/

/-- A stand-in for the C++ mathematical library, exact on the few arguments the
examples use. -/
def sampleLibm : Libm :=
  { slerp := fun a _ _ => a, tan := fun _ => 1,
    sqrt := fun x => if x = 25 then 5 else if x = 9 then 3 else 0 }

/-- A layout for the examples: a non-negative integer below `2^32` is its own
bit pattern. -/
def sampleLayout : Layout :=
  { toBits := fun x => x.num.toNat, ofBits := fun n => (n : ℚ), bigEndian := false }

/-- Sample keyframe A. -/
def camA : Camera :=
  { position := ⟨1, 0, 0⟩, rotation := ⟨0, 0, 0, 1⟩, fovy := 1, aspect := 1, znear := 1,
    zfar := 100, savePath := "", debugVideo := false }

/-- Sample keyframe B. -/
def camB : Camera :=
  { position := ⟨2, 0, 0⟩, rotation := ⟨0, 0, 0, 1⟩, fovy := 1, aspect := 1, znear := 1,
    zfar := 100, savePath := "", debugVideo := false }

/-- Sample keyframe C. -/
def camC : Camera :=
  { position := ⟨3, 0, 0⟩, rotation := ⟨0, 0, 0, 1⟩, fovy := 1, aspect := 1, znear := 1,
    zfar := 100, savePath := "", debugVideo := false }

/-- A new recorder whose path is `cs`. -/
def recorderWith (cs : List Camera) : CameraRecorder :=
  { CameraRecorder.create false with _cameras := cs }

/-- Assignment through the reference returned by `speed()`. -/
def CameraRecorder.setSpeed (r : CameraRecorder) (v : ℚ) : CameraRecorder :=
  { r with _speed := v }

/-- Two cameras have the same pose: position, orientation and field of view. -/
def Camera.SamePose (a b : Camera) : Prop :=
  a.position = b.position ∧ a.rotation = b.rotation ∧ a.fovy = b.fovy

/-- An active input camera at a given position. -/
def inputCameraAt (x y z : ℚ) : InputCamera :=
  { (default : InputCamera) with position := ⟨x, y, z⟩ }

/-- A handler in its initial mode whose current camera is at the origin. -/
def sampleHandler : InteractiveCameraHandler :=
  { _currentMode := InteractionMode.FPS, _shouldSmooth := true, _startCam := 0,
    _interpFactor := 0, _shouldSnap := false, _supportRecording := true, _radius := 100,
    _currentCamId := 0, _saveFrame := false, _viewport := ⟨0, 0⟩,
    _triggerCameraUpdate := false, _isSetup := false,
    _trackball := ⟨default, ⟨0, 0⟩, 100, false⟩, _orbit := ⟨default⟩,
    _fpsCamera := ⟨default, 1⟩, _raycaster := none, _currentCamera := default,
    _previousCamera := default, _interpPath := [], _cameraRecorder := CameraRecorder.create false }

/-- The extension of a file name as `Path::extension()` gives it: the part of the
last path component from its last dot on, empty when there is no dot. -/
def fileExtension (s : String) : String :=
  let name := (s.toList.reverse.takeWhile (fun ch => ch != '/')).reverse
  if name.contains '.' then
    String.mk ('.' :: (name.reverse.takeWhile (fun ch => ch != '.')).reverse)
  else ""

/-- A world for the examples: no file can be opened. -/
def sampleWorld : World :=
  { layout := sampleLayout, extension := fileExtension,
    bundleCamera := fun _ _ _ _ _ => default,
    binaryFile := fun _ => none, bundleFile := fun _ => none }

/-- The playing invariant at speed 1: not recording, playing, index `k`, a
non-negative factor, and a path of `n` keyframes. -/
def CameraRecorder.PlayingAt (s : CameraRecorder) (k n : Nat) : Prop :=
  s._recording = false ∧ s._playing = true ∧ s._speed = 1 ∧ 0 ≤ s._interp ∧ s._pos = k
    ∧ s._cameras.length = n

/-- The recorder states reachable from `r0` by a sequence of calls of the public
methods `record`, `playback`, `stop`, `reset`, `use`, `load`, `safeLoad`,
`loadBundle`, `saving`, `savingVideo` and `stopSaving`, with any arguments. -/
inductive CameraRecorder.ReachableFrom (M : Libm) (W : World) (r0 : CameraRecorder) :
    CameraRecorder → Prop where
  | start : ReachableFrom M W r0 r0
  | record (r : CameraRecorder) : ReachableFrom M W r0 r → ReachableFrom M W r0 r.record
  | playback (r : CameraRecorder) : ReachableFrom M W r0 r → ReachableFrom M W r0 r.playback
  | stop (r : CameraRecorder) : ReachableFrom M W r0 r → ReachableFrom M W r0 r.stop
  | reset (r : CameraRecorder) : ReachableFrom M W r0 r → ReachableFrom M W r0 r.reset
  | use (r : CameraRecorder) (cam : Camera) :
      ReachableFrom M W r0 r → ReachableFrom M W r0 (CameraRecorder.use M r cam).1
  | load (r : CameraRecorder) (filename : String) :
      ReachableFrom M W r0 r → ReachableFrom M W r0 (r.load W.layout (W.binaryFile filename)).2
  | safeLoad (r : CameraRecorder) (filename : String) (w h : Int) :
      ReachableFrom M W r0 r → ReachableFrom M W r0 (r.safeLoad W filename w h).2
  | loadBundle (r : CameraRecorder) (filePath : String) (w h : Int) :
      ReachableFrom M W r0 r → ReachableFrom M W r0 (r.loadBundle W filePath w h)
  | saving (r : CameraRecorder) (savePath : String) :
      ReachableFrom M W r0 r → ReachableFrom M W r0 (r.saving savePath)
  | savingVideo (r : CameraRecorder) (saveVideo : Bool) :
      ReachableFrom M W r0 r → ReachableFrom M W r0 (r.savingVideo saveVideo)
  | stopSaving (r : CameraRecorder) : ReachableFrom M W r0 r → ReachableFrom M W r0 r.stopSaving

/-- An inactive input camera at a given position. -/
def inactiveCameraAt (x y z : ℚ) : InputCamera :=
  { inputCameraAt x y z with _active := false }

/-- A handler in FPS mode with a traversal path of five cameras, whose traversal
cursor stands at segment 3, factor 7. -/
def sampleHandlerAtSegment3 : InteractiveCameraHandler :=
  { sampleHandler with
    _interpPath := [inputCameraAt 0 0 0, inputCameraAt 1 0 0, inputCameraAt 2 0 0,
                    inputCameraAt 3 0 0, inputCameraAt 4 0 0]
    _startCam := 3
    _interpFactor := 7 }

/-- The 15 values that `loadBundle` extracts for camera `i`: the entries
`15 * i`, ..., `15 * i + 14` of the values of the file. -/
def bundleValues (values : List ℚ) (i : Nat) : List ℚ :=
  (List.range 15).map (fun k => values.getD (15 * i + k) 0)

/-- The camera that `loadBundle` appends for index `i` of a bundle file. -/
def bundleKeyframe (W : World) (t : BundleText) (w h : Int) (i : Nat) : Camera :=
  { (W.bundleCamera i w h (bundleValues t.values i) true).toCamera with
    znear := 1 / 5, zfar := 250 }

/-- A world with one bundle file, `scene.out`, that declares two cameras. -/
def sampleBundleWorld : World :=
  { sampleWorld with
    bundleFile := fun name =>
      if name = "scene.out" then
        some { numImages := 2
               values := [500, 0, 0, 1, 0, 0, 0, 1, 0, 0, 0, 1, 0, 0, 0,
                          600, 0, 0, 1, 0, 0, 0, 1, 0, 0, 0, 1, 4, 5, 6] }
      else none }

/-- The nine coefficients of a matrix, row after row. -/
def Matrix3f.rowMajor (m : Matrix3f) : List ℚ :=
  [m.m00, m.m01, m.m02, m.m10, m.m11, m.m12, m.m20, m.m21, m.m22]

/-- A handler in interpolation mode whose traversal path holds one camera. -/
def sampleHandlerOneCamera : InteractiveCameraHandler :=
  { sampleHandler with
    _currentMode := InteractionMode.INTERPOLATION
    _interpPath := [inputCameraAt 1 0 0] }

/-- A handler in interpolation mode over a traversal path of three cameras, with
the traversal cursor at its construction value: segment 0, factor 0. -/
def sampleHandlerAtSegment0 : InteractiveCameraHandler :=
  { sampleHandler with
    _currentMode := InteractionMode.INTERPOLATION
    _interpPath := [inputCameraAt 0 0 0, inputCameraAt 1 0 0, inputCameraAt 2 0 0]
    _startCam := 0
    _interpFactor := 0 }

/-- A tick in which no key is released or held. -/
def noKeys : Input := ⟨fun _ => false, fun _ => false⟩

/-- The input of the load command: LeftShift held, C released. -/
def shiftC : Input :=
  ⟨fun k => decide (k = Key.C), fun k => decide (k = Key.LeftShift)⟩

/-- Sub-controllers that keep their camera through a tick. -/
def sampleControls : Controls :=
  ⟨fun o _ _ => o, fun t _ _ _ => t, fun f _ _ => f, fun f _ => f⟩

/-- A handler whose recorder has just been put in playback over `[camA, camB]`. -/
def samplePlayingHandler : InteractiveCameraHandler :=
  { sampleHandler with _cameraRecorder := (recorderWith [camA, camB]).playback }

/-- A world with one file, "scene.xyz", that holds the native path `[camA, camB]`. -/
def sampleNativeWorld : World :=
  { sampleWorld with
    binaryFile := fun f =>
      if f = "scene.xyz" then some (CameraRecorder.save sampleLayout (recorderWith [camA, camB]))
      else none }

/-- The handler after `setup` without a viewport, then `setup` with a viewport of
800 by 600: the deferred flag is set and the stored viewport is not empty. -/
def sampleDeferredHandler : InteractiveCameraHandler :=
  (sampleHandler.setup default ⟨0, 0⟩ none).setup default ⟨800, 600⟩ none

/-- A handler whose recorder has just been put in recording. -/
def sampleRecordingHandler : InteractiveCameraHandler :=
  { sampleHandler with _cameraRecorder := (CameraRecorder.create false).record }

/-- The inputs on which the chain of key tests of `update` arrives at the load
command: none of B, V, Y, Space, P is released, LeftShift is held, neither LeftAlt
nor LeftControl is held, and C is released. -/
def Input.reachesLoad (input : Input) : Bool :=
  !input.isReleased Key.B && !input.isReleased Key.V && !input.isReleased Key.Y
    && !input.isReleased Key.Space && !input.isReleased Key.P
    && input.isActivated Key.LeftShift && !input.isActivated Key.LeftAlt
    && !input.isActivated Key.LeftControl && input.isReleased Key.C

/-- A step from `s` to `t` that leaves the stored viewport alone, does not clear the
deferred flag, and does not set it unless the stored viewport is empty. -/
def InteractiveCameraHandler.FlagKept (s t : InteractiveCameraHandler) : Prop :=
  t._viewport = s._viewport
    ∧ (s._triggerCameraUpdate = true → t._triggerCameraUpdate = true)
    ∧ (s._viewport.isEmpty = false → t._triggerCameraUpdate = s._triggerCameraUpdate)

/-! ## Theorems -/

/-! ### Rounding to binary32 -/

theorem roundHalfEven_intCast (n : Int) : roundHalfEven (n : ℚ) = n := by
  unfold roundHalfEven
  simp

theorem two_pow_24_mul (E : ℤ) : (2 : ℚ) ^ (24 : ℕ) * 2 ^ (E - 23) = 2 ^ (E + 1) := by
  rw [← zpow_natCast, ← zpow_add₀ (by norm_num : (2 : ℚ) ≠ 0)]
  congr 1
  push_cast
  ring

theorem fl32_zero : fl32 0 = 0 := by
  unfold fl32
  rw [zero_div]
  have : roundHalfEven 0 = 0 := by
    have := roundHalfEven_intCast 0
    simpa using this
  rw [this]
  simp

/-- A value `n * 2 ^ k` with fewer than 24 significant bits and an exponent not below
that of the subnormal numbers is a binary32 number: rounding leaves it as it is. -/
theorem fl32_of_dyadic (n k : ℤ) (hn : |n| < 2 ^ (24 : ℕ)) (hk : -149 ≤ k) :
    fl32 ((n : ℚ) * 2 ^ k) = (n : ℚ) * 2 ^ k := by
  by_cases h0 : n = 0
  · subst h0
    simp [fl32_zero]
  have hv : (0 : ℚ) < |(n : ℚ) * 2 ^ k| := by
    apply abs_pos.mpr
    apply mul_ne_zero
    · exact_mod_cast h0
    · exact zpow_ne_zero _ (by norm_num)
  have hlog : Int.log 2 |(n : ℚ) * 2 ^ k| < k + 24 := by
    rw [← Int.lt_zpow_iff_log_lt (by norm_num) hv, Nat.cast_ofNat]
    rw [abs_mul, abs_of_pos (zpow_pos (by norm_num : (0 : ℚ) < 2) k)]
    have hnq : |(n : ℚ)| < 2 ^ (24 : ℕ) := by exact_mod_cast hn
    have e : (2 : ℚ) ^ (k + 24) = 2 ^ (24 : ℕ) * 2 ^ k := by
      rw [← zpow_natCast, ← zpow_add₀ (by norm_num : (2 : ℚ) ≠ 0)]
      congr 1
      push_cast
      ring
    rw [e]
    exact mul_lt_mul_of_pos_right hnq (zpow_pos (by norm_num) k)
  have hE : float32Exponent ((n : ℚ) * 2 ^ k) - 23 ≤ k := by
    unfold float32Exponent
    rcases max_cases (Int.log 2 |(n : ℚ) * 2 ^ k|) (-126) with ⟨e, _⟩ | ⟨e, _⟩ <;> rw [e] <;> omega
  unfold fl32
  generalize float32Exponent ((n : ℚ) * 2 ^ k) = E at hE
  obtain ⟨j, hj⟩ := Int.eq_ofNat_of_zero_le (by omega : 0 ≤ k - (E - 23))
  have hk2 : k = (j : ℤ) + (E - 23) := by omega
  have e1 : (n : ℚ) * 2 ^ k / 2 ^ (E - 23) = ((n * 2 ^ j : ℤ) : ℚ) := by
    rw [hk2, zpow_add₀ (by norm_num : (2 : ℚ) ≠ 0), zpow_natCast]
    have hq : (2 : ℚ) ^ (E - 23) ≠ 0 := zpow_ne_zero _ (by norm_num)
    field_simp
    ring
  rw [e1, roundHalfEven_intCast]
  rw [hk2, zpow_add₀ (by norm_num : (2 : ℚ) ≠ 0), zpow_natCast]
  push_cast
  ring

theorem fl32_one : fl32 1 = 1 := by
  have h := fl32_of_dyadic 1 0 (by norm_num) (by norm_num)
  simpa using h

theorem fl32_half : fl32 (1 / 2) = 1 / 2 := by
  have h := fl32_of_dyadic 1 (-1) (by norm_num) (by norm_num)
  have e : ((1 : ℤ) : ℚ) * 2 ^ (-1 : ℤ) = 1 / 2 := by norm_num
  rw [e] at h
  exact h

theorem fl32_one_sub_one : fl32 (1 - 1) = 0 := by
  rw [sub_self, fl32_zero]

theorem fl32_one_sub_half : fl32 (1 - 1 / 2) = 1 / 2 := by
  have e : (1 : ℚ) - 1 / 2 = 1 / 2 := by norm_num
  rw [e, fl32_half]

namespace CameraRecorder

theorem useAll_recording (M : Libm) (cs : List Camera) :
    ∀ r : CameraRecorder, r._recording = true →
      useAll M r cs = ({ r with _cameras := r._cameras ++ cs }, cs) := by
  induction cs with
  | nil => intro r _; simp [useAll]
  | cons c cs ih =>
    intro r hr
    have h1 : use M r c = ({ r with _cameras := r._cameras ++ [c] }, c) := by
      simp [use, hr]
    have h2 := ih { r with _cameras := r._cameras ++ [c] } hr
    simp only [useAll, h1, h2]
    simp

theorem advance_of_ge (s : CameraRecorder) (h : s._interp ≥ fl32 (1 - s._speed)) :
    s.advance = { s with _interp := 0, _pos := s._pos + 1 } := by
  unfold advance; rw [if_pos h]

theorem advance_of_lt (s : CameraRecorder) (h : ¬ s._interp ≥ fl32 (1 - s._speed)) :
    s.advance = s := by
  unfold advance; rw [if_neg h]

theorem advance_cameras (s : CameraRecorder) : s.advance._cameras = s._cameras := by
  unfold advance; split <;> rfl

theorem advance_speed (s : CameraRecorder) : s.advance._speed = s._speed := by
  unfold advance; split <;> rfl

theorem use_fst_playing (M : Libm) (s : CameraRecorder) (c : Camera)
    (h1 : s._recording = false) (h2 : s._playing = true) (h3 : s._pos < s._cameras.length) :
    (use M s c).1 =
      if s.advance._pos ≥ s._cameras.length then
        { s.advance with _interp := fl32 (s.advance._interp + s._speed) }.stop
      else { s.advance with _interp := fl32 (s.advance._interp + s._speed) } := by
  unfold use
  rw [if_neg (by simp [h1]), if_pos ⟨h2, h3⟩]
  simp only [advance_cameras, advance_speed]

theorem use_step_speed_one (M : Libm) (s : CameraRecorder) (c : Camera) (k n : Nat)
    (h : PlayingAt s k n) (hk : k + 1 < n) : PlayingAt (use M s c).1 (k + 1) n := by
  obtain ⟨h1, h2, h3, h4, h5, h6⟩ := h
  have hadv : s._interp ≥ fl32 (1 - s._speed) := by
    rw [h3, sub_self, fl32_zero]; exact h4
  rw [use_fst_playing M s c h1 h2 (by omega), advance_of_ge s hadv]
  rw [if_neg (by show ¬ (s._pos + 1 ≥ s._cameras.length); omega)]
  refine ⟨h1, h2, h3, ?_, by show s._pos + 1 = k + 1; omega, h6⟩
  show (0 : ℚ) ≤ fl32 (0 + s._speed)
  rw [h3, zero_add, fl32_one]; norm_num

theorem use_last_speed_one (M : Libm) (s : CameraRecorder) (c : Camera) (k n : Nat)
    (h : PlayingAt s k n) (hk : k + 1 = n) :
    (use M s c).1._playing = false ∧ (use M s c).1._pos = 0 ∧ (use M s c).1._interp = 0 := by
  obtain ⟨h1, h2, h3, h4, h5, h6⟩ := h
  have hadv : s._interp ≥ fl32 (1 - s._speed) := by
    rw [h3, sub_self, fl32_zero]; exact h4
  rw [use_fst_playing M s c h1 h2 (by omega), advance_of_ge s hadv]
  rw [if_pos (by show s._pos + 1 ≥ s._cameras.length; omega)]
  exact ⟨rfl, rfl, rfl⟩

theorem useAll_playing_speed_one (M : Libm) (n : Nat) (live : List Camera) :
    ∀ (s : CameraRecorder) (k : Nat), PlayingAt s k n → k + live.length < n →
      PlayingAt (useAll M s live).1 (k + live.length) n := by
  induction live with
  | nil => intro s k h _; simpa [useAll] using h
  | cons c cs ih =>
    intro s k h hk
    simp only [List.length_cons] at hk
    have h1 := use_step_speed_one M s c k n h (by omega)
    have h2 := ih (use M s c).1 (k + 1) h1 (by omega)
    simp only [useAll, List.length_cons]
    have e : k + (cs.length + 1) = k + 1 + cs.length := by omega
    rw [e]; exact h2

theorem useAll_stops_speed_one (M : Libm) (n : Nat) (live : List Camera) :
    ∀ (s : CameraRecorder) (k : Nat), PlayingAt s k n → live ≠ [] → k + live.length = n →
      (useAll M s live).1._playing = false ∧ (useAll M s live).1._pos = 0
        ∧ (useAll M s live).1._interp = 0 := by
  induction live with
  | nil => intro s k _ hne; exact absurd rfl hne
  | cons c cs ih =>
    intro s k h _ hk
    simp only [List.length_cons] at hk
    cases cs with
    | nil =>
      simp only [List.length_nil] at hk
      simpa [useAll] using use_last_speed_one M s c k n h (by omega)
    | cons d ds =>
      simp only [List.length_cons] at hk
      have h1 := use_step_speed_one M s c k n h (by omega)
      have h2 := ih (use M s c).1 (k + 1) h1 (by simp) (by simp only [List.length_cons]; omega)
      simpa [useAll] using h2

theorem playingAt_playback (r : CameraRecorder) (hs : r._speed = 1) :
    PlayingAt r.playback 0 r._cameras.length :=
  ⟨rfl, rfl, hs, le_refl _, rfl, rfl⟩

end CameraRecorder

/-- C2. Record ordering: from a recorder whose path is `p`, `record()`, then
`use(c)` for each camera of `cs` in order, then `stop()` leaves the path equal to
`p` followed by `cs` in that order (from the empty path of a new recorder: exactly
`cs`), and the cameras handed to `use` come back unmodified. -/
theorem record_ordering (M : Libm) (r : CameraRecorder) (cs : List Camera) (b : Bool) :
    ((CameraRecorder.useAll M r.record cs).1.stop)._cameras = r._cameras ++ cs
      ∧ ((CameraRecorder.useAll M (CameraRecorder.create b).record cs).1.stop)._cameras = cs
      ∧ (CameraRecorder.useAll M r.record cs).2 = cs := by
  rw [CameraRecorder.useAll_recording M cs r.record rfl,
    CameraRecorder.useAll_recording M cs (CameraRecorder.create b).record rfl]
  exact ⟨rfl, rfl, rfl⟩

/-- C3. Playback termination: for a path of `N ≥ 2` keyframes and speed 1, after
`playback()` the recorder is still playing after each of the first `N - 1` calls
to `use`, and after the `N`-th call it is stopped with the cursor at (0, 0). -/
theorem playback_termination (M : Libm) (r : CameraRecorder) (live : List Camera)
    (hs : r._speed = 1) (hN : 2 ≤ r._cameras.length) :
    (live.length < r._cameras.length →
        (CameraRecorder.useAll M r.playback live).1.isPlaying = true)
      ∧ (live.length = r._cameras.length →
        (CameraRecorder.useAll M r.playback live).1.isPlaying = false
          ∧ (CameraRecorder.useAll M r.playback live).1._pos = 0
          ∧ (CameraRecorder.useAll M r.playback live).1._interp = 0) := by
  have h0 := CameraRecorder.playingAt_playback r hs
  constructor
  · intro hl
    have h := CameraRecorder.useAll_playing_speed_one M r._cameras.length live r.playback 0 h0
      (by omega)
    exact h.2.1
  · intro hl
    have hne : live ≠ [] := by
      intro e; rw [e] at hl; simp at hl; omega
    exact CameraRecorder.useAll_stops_speed_one M r._cameras.length live r.playback 0 h0 hne
      (by omega)

/-! ### The codec -/

theorem readWord_wordBytes (be : Bool) (w : Nat) (hw : w < 4294967296) (rest : List Nat)
    (v : Bool) :
    ByteStream.readWord be { buffer := wordBytes be w ++ rest, valid := v }
      = (some w, { buffer := rest, valid := v }) := by
  cases be
  · simp only [wordBytes, ByteStream.readWord, bytesWord, Bool.false_eq_true, if_false,
      List.cons_append, List.nil_append]
    congr 2
    omega
  · simp only [wordBytes, ByteStream.readWord, bytesWord, if_true,
      List.cons_append, List.nil_append]
    congr 2
    omega

theorem readFloat_floatBytes (L : Layout) (x init : ℚ) (hx : L.Representable x)
    (rest : List Nat) (v : Bool) :
    ByteStream.readFloat L init { buffer := floatBytes L x ++ rest, valid := v }
      = (x, { buffer := rest, valid := v }) := by
  obtain ⟨h1, h2⟩ := hx
  unfold ByteStream.readFloat floatBytes
  rw [Nat.mod_eq_of_lt h1, readWord_wordBytes _ _ h1]
  simp [h2]

theorem readCamera_cameraBytes (L : Layout) (c : Camera)
    (hc : ∀ x ∈ c.fields, L.Representable x) (rest : List Nat) (v : Bool) :
    ByteStream.readCamera L { buffer := cameraBytes L c ++ rest, valid := v }
      = (c.stored, { buffer := rest, valid := v }) := by
  simp only [Camera.fields, List.mem_cons, List.mem_singleton, forall_eq_or_imp, forall_eq,
    List.not_mem_nil, false_imp_iff, implies_true, and_true] at hc
  obtain ⟨h1, h2, h3, h4, h5, h6, h7, h8, h9, h10, h11⟩ := hc
  simp only [cameraBytes, Camera.fields, List.map_cons, List.map_nil, List.flatten_cons,
    List.flatten_nil, List.append_nil, List.append_assoc, ByteStream.readCamera]
  rw [readFloat_floatBytes L _ _ h1]; simp only []
  rw [readFloat_floatBytes L _ _ h2]; simp only []
  rw [readFloat_floatBytes L _ _ h3]; simp only []
  rw [readFloat_floatBytes L _ _ h4]; simp only []
  rw [readFloat_floatBytes L _ _ h5]; simp only []
  rw [readFloat_floatBytes L _ _ h6]; simp only []
  rw [readFloat_floatBytes L _ _ h7]; simp only []
  rw [readFloat_floatBytes L _ _ h8]; simp only []
  rw [readFloat_floatBytes L _ _ h9]; simp only []
  rw [readFloat_floatBytes L _ _ h10]; simp only []
  rw [readFloat_floatBytes L _ _ h11]
  rfl

theorem readCameras_cameraBytes (L : Layout) (cs : List Camera) :
    (∀ c ∈ cs, ∀ x ∈ c.fields, L.Representable x) → ∀ (rest : List Nat) (v : Bool),
      ByteStream.readCameras L cs.length
          { buffer := (cs.map (cameraBytes L)).flatten ++ rest, valid := v }
        = (cs.map Camera.stored, { buffer := rest, valid := v }) := by
  induction cs with
  | nil => intro _ rest v; rfl
  | cons c cs ih =>
    intro h rest v
    have hc : ∀ x ∈ c.fields, L.Representable x := h c (List.mem_cons_self _ _)
    have hcs : ∀ c' ∈ cs, ∀ x ∈ c'.fields, L.Representable x :=
      fun c' hc' => h c' (List.mem_cons_of_mem _ hc')
    simp only [List.length_cons, List.map_cons, List.flatten_cons, List.append_assoc,
      ByteStream.readCameras]
    rw [readCamera_cameraBytes L c hc]
    simp only []
    rw [ih hcs]

theorem toInt32_of_lt (n : Nat) (h : n < 2147483648) : toInt32 n = n := by
  unfold toInt32
  have e : n % 4294967296 = n := Nat.mod_eq_of_lt (by omega)
  rw [e, if_pos h]

theorem forall₂_sameSnapshot_stored (cs : List Camera) :
    List.Forall₂ Camera.SameSnapshot (cs.map Camera.stored) cs := by
  induction cs with
  | nil => exact List.Forall₂.nil
  | cons c cs ih => exact List.Forall₂.cons ⟨rfl, rfl, rfl, rfl, rfl, rfl⟩ ih

theorem load_save_eq (L : Layout) (r r' : CameraRecorder)
    (hlen : r._cameras.length < 2147483648)
    (hrep : ∀ c ∈ r._cameras, ∀ x ∈ c.fields, L.Representable x) :
    CameraRecorder.load L (some (CameraRecorder.save L r)) r'
      = (true, { r'.reset with _cameras := r._cameras.map Camera.stored }) := by
  have hw : r._cameras.length < 4294967296 := by omega
  unfold CameraRecorder.load CameraRecorder.save
  simp only [ByteStream.readInt32]
  rw [Nat.mod_eq_of_lt hw, readWord_wordBytes _ _ hw]
  simp only [toInt32_of_lt _ hlen, Int.toNat_ofNat]
  have h := readCameras_cameraBytes L r._cameras hrep [] true
  rw [List.append_nil] at h
  rw [h]
  rfl

theorem load_save_wrapped (L : Layout) (r r' : CameraRecorder)
    (h1 : 2147483648 ≤ r._cameras.length) (h2 : r._cameras.length < 4294967296) :
    (CameraRecorder.load L (some (CameraRecorder.save L r)) r').2._cameras = [] := by
  unfold CameraRecorder.load CameraRecorder.save
  simp only [ByteStream.readInt32]
  rw [Nat.mod_eq_of_lt h2, readWord_wordBytes _ _ h2]
  have e : (toInt32 r._cameras.length).toNat = 0 := by
    unfold toInt32
    rw [Nat.mod_eq_of_lt h2, if_neg (by omega)]
    omega
  simp only [e, ByteStream.readCameras]
  rfl

/-- C1 (as amended). Round trip of the native path codec: for every path (empty or
not) of fewer than `2^31` snapshots whose scalars are `float`s of the platform, `load`
on the bytes written by `save` returns true and leaves a path of the same length
holding, in the same order, the same snapshots (position, orientation, fov,
aspect, near/far); the recorder is otherwise reset. -/
theorem save_load_round_trip (L : Layout) (r r' : CameraRecorder)
    (hlen : r._cameras.length < 2147483648)
    (hrep : ∀ c ∈ r._cameras, ∀ x ∈ c.fields, L.Representable x) :
    (CameraRecorder.load L (some (CameraRecorder.save L r)) r').1 = true
      ∧ (CameraRecorder.load L (some (CameraRecorder.save L r)) r').2._cameras.length
          = r._cameras.length
      ∧ List.Forall₂ Camera.SameSnapshot
          (CameraRecorder.load L (some (CameraRecorder.save L r)) r').2._cameras r._cameras
      ∧ (CameraRecorder.load L (some (CameraRecorder.save L r)) r').2
          = { r'.reset with _cameras := r._cameras.map Camera.stored } := by
  rw [load_save_eq L r r' hlen hrep]
  refine ⟨rfl, ?_, ?_, rfl⟩
  · show (r._cameras.map Camera.stored).length = r._cameras.length
    simp
  · exact forall₂_sameSnapshot_stored r._cameras

/-- C1, counterexample: a path of `2^31` snapshots.  Its count does not fit the
`int32` of the file: `load` reads a negative count and leaves an empty path, which
is not the path that was saved. -/
theorem save_load_round_trip_fails_at_2_pow_31 :
    ¬ List.Forall₂ Camera.SameSnapshot
        (CameraRecorder.load sampleLayout
          (some (CameraRecorder.save sampleLayout (recorderWith (List.replicate 2147483648 camA))))
          (recorderWith [])).2._cameras
        (recorderWith (List.replicate 2147483648 camA))._cameras := by
  have hl : (recorderWith (List.replicate 2147483648 camA))._cameras.length = 2147483648 :=
    List.length_replicate _ _
  rw [load_save_wrapped sampleLayout _ _ (by rw [hl]) (by rw [hl]; norm_num)]
  intro h
  have h' := h.length_eq
  rw [hl] at h'
  simp at h'

theorem sample_representable :
    ∀ c ∈ (recorderWith [camA, camB])._cameras, ∀ x ∈ c.fields,
      sampleLayout.Representable x := by
  intro c hc x hx
  simp only [recorderWith, List.mem_cons, List.mem_singleton, List.not_mem_nil, or_false] at hc
  rcases hc with rfl | rfl <;>
    simp only [Camera.fields, camA, camB, List.mem_cons, List.mem_singleton, List.not_mem_nil,
      or_false] at hx <;>
    rcases hx with rfl | rfl | rfl | rfl | rfl | rfl | rfl | rfl | rfl | rfl | rfl <;>
    norm_num [Layout.Representable, sampleLayout] <;> rfl

/-- C1, witness: the round trip of the two-keyframe path `[camA, camB]`. -/
theorem save_load_round_trip_witness :
    (CameraRecorder.load sampleLayout
        (some (CameraRecorder.save sampleLayout (recorderWith [camA, camB])))
        (recorderWith [camC])).1 = true
      ∧ (CameraRecorder.load sampleLayout
          (some (CameraRecorder.save sampleLayout (recorderWith [camA, camB])))
          (recorderWith [camC])).2._cameras.length = 2 :=
  ⟨(save_load_round_trip sampleLayout (recorderWith [camA, camB]) (recorderWith [camC])
      (by decide) sample_representable).1,
   (save_load_round_trip sampleLayout (recorderWith [camA, camB]) (recorderWith [camC])
      (by decide) sample_representable).2.1⟩

/-- C3, witness: with the two keyframes `[camA, camB]` at speed 1 the recorder is
still playing after the first call to `use` and stopped after the second. -/
theorem playback_termination_witness :
    (CameraRecorder.useAll sampleLibm (recorderWith [camA, camB]).playback [camC]).1.isPlaying
        = true
      ∧ (CameraRecorder.useAll sampleLibm (recorderWith [camA, camB]).playback
          [camC, camC]).1.isPlaying = false :=
  ⟨(playback_termination sampleLibm (recorderWith [camA, camB]) [camC] rfl (by decide)).1
      (by decide),
   ((playback_termination sampleLibm (recorderWith [camA, camB]) [camC, camC] rfl
      (by decide)).2 rfl).1⟩

/-! ### Interpolation -/

theorem lerp_self (a t : ℚ) : lerp a a t = a := by
  unfold lerp; ring

theorem vector_lerp_self (a : Vector3f) (t : ℚ) : a.lerp a t = a := by
  unfold Vector3f.lerp
  simp only [lerp_self]

/-- With both endpoints equal, the linear parts of `interpolate` return the
endpoint: the position and the field of view of `interpolate(a, a, t)` are those of
`a`, for every camera and every factor. -/
theorem interpolate_self_position_fovy (M : Libm) (a : Camera) (t : ℚ) :
    (Camera.interpolate M a a t).position = a.position
      ∧ (Camera.interpolate M a a t).fovy = a.fovy := by
  unfold Camera.interpolate
  exact ⟨vector_lerp_self _ _, lerp_self _ _⟩

/-! ### The playing branch of `use` -/

theorem use_snd_playing (M : Libm) (s : CameraRecorder) (c : Camera)
    (h1 : s._recording = false) (h2 : s._playing = true) (h3 : s._pos < s._cameras.length) :
    (CameraRecorder.use M s c).2 =
      (fun c2 : Camera => if s._savingVideo then c2.setDebugVideo true else c2)
        ((fun c1 : Camera => if s._saving then
            c1.setSavePath (s._savingPath ++ "/" ++ zeroPad8 (uintPred s.advance._pos) ++ ".png")
          else c1)
          { Camera.interpolate M (s.advance.camAt s.advance.startIndex)
              (s.advance.camAt s.advance.nextIndex) (clampFactor s.advance._interp)
            with znear := c.znear, zfar := c.zfar }) := by
  have hs : s.advance._saving = s._saving := by
    unfold CameraRecorder.advance; split <;> rfl
  have hp : s.advance._savingPath = s._savingPath := by
    unfold CameraRecorder.advance; split <;> rfl
  have hv : s.advance._savingVideo = s._savingVideo := by
    unfold CameraRecorder.advance; split <;> rfl
  unfold CameraRecorder.use
  rw [if_neg (by simp [h1]), if_pos ⟨h2, h3⟩]
  simp only [hs, hp, hv, clampFactor]

/-- C10, the code at the failing input: speed 0.5, two keyframes, `saving("out")`,
`playback()`, first call of `use`.  The index is still 0 when the name is built
and `_pos - 1` wraps: the name has ten digits. -/
theorem frame_filename_underflow :
    (CameraRecorder.use sampleLibm
        ((((recorderWith [camA, camB]).setSpeed (1 / 2)).saving "out").playback) camC).2.savePath
      = "out/4294967295.png" := by
  rw [use_snd_playing _ _ _ rfl rfl (by decide)]
  have hadv : ¬ ((((recorderWith [camA, camB]).setSpeed (1 / 2)).saving "out").playback)._interp
      ≥ fl32 (1 - ((((recorderWith [camA, camB]).setSpeed (1 / 2)).saving "out").playback)._speed) := by
    show ¬ ((0 : ℚ) ≥ fl32 (1 - 1 / 2))
    rw [fl32_one_sub_half]
    norm_num
  rw [CameraRecorder.advance_of_lt _ hadv]
  decide

theorem camAt_eq (s : CameraRecorder) (i : Nat) (h : i < s._cameras.length) :
    s._cameras[i]? = some (s.camAt (i : Int)) := by
  unfold CameraRecorder.camAt
  rw [Int.toNat_ofNat, List.getD_eq_getElem?_getD, List.getElem?_eq_getElem h]
  rfl

theorem startIndex_eq (s : CameraRecorder) (h : 0 < s._cameras.length) :
    s.startIndex = ((min s._pos (s._cameras.length - 1) : Nat) : Int) := by
  unfold CameraRecorder.startIndex
  omega

theorem nextIndex_eq (s : CameraRecorder) (h : 0 < s._cameras.length) :
    s.nextIndex = ((min (s._pos + 1) (s._cameras.length - 1) : Nat) : Int) := by
  unfold CameraRecorder.nextIndex
  omega

theorem samePose_use_playing (M : Libm) (s : CameraRecorder) (c : Camera)
    (h1 : s._recording = false) (h2 : s._playing = true) (h3 : s._pos < s._cameras.length) :
    Camera.SamePose (CameraRecorder.use M s c).2
      (Camera.interpolate M (s.advance.camAt s.advance.startIndex)
        (s.advance.camAt s.advance.nextIndex) (clampFactor s.advance._interp)) := by
  rw [use_snd_playing M s c h1 h2 h3]
  cases s._savingVideo <;> cases s._saving <;> exact ⟨rfl, rfl, rfl⟩

/-- The pose written by the playing branch of `use`: the cursor is first advanced
(index + 1, factor 0) when the factor has reached the `float` `1.0f - _speed`, and
the pose is then `interpolate(keyframe[i], keyframe[i+1], factor)` for the cursor
`(i, factor)` after that step, the factor clamped to `[1e-6, 1-1e-6]` and both
indices clamped to the last keyframe. -/
theorem use_playing_pose (M : Libm) (r : CameraRecorder) (cam : Camera)
    (h1 : r._recording = false) (h2 : r._playing = true) (h3 : r._pos < r._cameras.length) :
    (∃ kS kN : Camera,
        r._cameras[min r.advance._pos (r._cameras.length - 1)]? = some kS
          ∧ r._cameras[min (r.advance._pos + 1) (r._cameras.length - 1)]? = some kN
          ∧ Camera.SamePose (CameraRecorder.use M r cam).2
              (Camera.interpolate M kS kN (clampFactor r.advance._interp)))
      ∧ (r._interp ≥ fl32 (1 - r._speed) →
          r.advance._pos = r._pos + 1 ∧ r.advance._interp = 0)
      ∧ (r._interp < fl32 (1 - r._speed) →
          r.advance._pos = r._pos ∧ r.advance._interp = r._interp) := by
  have hpos : 0 < r.advance._cameras.length := by
    rw [CameraRecorder.advance_cameras]; omega
  have hpose := samePose_use_playing M r cam h1 h2 h3
  rw [startIndex_eq _ hpos, nextIndex_eq _ hpos] at hpose
  refine ⟨⟨_, _, ?_, ?_, hpose⟩, ?_, ?_⟩
  · rw [← CameraRecorder.advance_cameras r]
    exact camAt_eq _ _ (by omega)
  · rw [← CameraRecorder.advance_cameras r]
    exact camAt_eq _ _ (by omega)
  · intro h
    rw [CameraRecorder.advance_of_ge r h]
    exact ⟨rfl, rfl⟩
  · intro h
    rw [CameraRecorder.advance_of_lt r (not_le.mpr h)]
    exact ⟨rfl, rfl⟩

/-- C9, the code at the failing input: speed 1 (the default), keyframes
`[camA, camB, camC]`, first `use` after `playback()`.  The cursor is (0, 0) when
`use` is called; the test `_interp >= 1.0f - _speed` is `0 >= 0`, the index is
advanced first, and the pose written is the one interpolated from keyframe 1
towards keyframe 2, not from keyframe 0 towards keyframe 1: keyframe 0 is never
replayed. -/
theorem playing_pose_first_use_at_speed_one :
    (CameraRecorder.use sampleLibm (recorderWith [camA, camB, camC]).playback camA).2.position
        = (Camera.interpolate sampleLibm camB camC (clampFactor 0)).position
      ∧ ¬ Camera.SamePose
          (CameraRecorder.use sampleLibm (recorderWith [camA, camB, camC]).playback camA).2
          (Camera.interpolate sampleLibm camA camB (clampFactor 0)) := by
  have hadv : ((recorderWith [camA, camB, camC]).playback)._interp
      ≥ fl32 (1 - ((recorderWith [camA, camB, camC]).playback)._speed) := by
    show (0 : ℚ) ≥ fl32 (1 - 1)
    rw [fl32_one_sub_one]
  have hpose := samePose_use_playing sampleLibm (recorderWith [camA, camB, camC]).playback camA
    rfl rfl (by decide)
  rw [CameraRecorder.advance_of_ge _ hadv] at hpose
  have hS : CameraRecorder.camAt
      { (recorderWith [camA, camB, camC]).playback with
        _interp := 0, _pos := ((recorderWith [camA, camB, camC]).playback)._pos + 1 }
      (CameraRecorder.startIndex
        { (recorderWith [camA, camB, camC]).playback with
          _interp := 0, _pos := ((recorderWith [camA, camB, camC]).playback)._pos + 1 }) = camB := by
    rfl
  have hN : CameraRecorder.camAt
      { (recorderWith [camA, camB, camC]).playback with
        _interp := 0, _pos := ((recorderWith [camA, camB, camC]).playback)._pos + 1 }
      (CameraRecorder.nextIndex
        { (recorderWith [camA, camB, camC]).playback with
          _interp := 0, _pos := ((recorderWith [camA, camB, camC]).playback)._pos + 1 }) = camC := by
    rfl
  rw [hS, hN] at hpose
  refine ⟨hpose.1, ?_⟩
  intro h
  have hx := congrArg Vector3f.x (hpose.1.symm.trans h.1)
  norm_num [Camera.interpolate, Vector3f.lerp, lerp, clampFactor, eps, camA, camB, camC] at hx

/-! ### InteractiveCameraHandler -/

/-- C5. Mode-switch idempotence: `switchMode(X)` while the current mode is already
`X` leaves the whole handler state as it was (mode, current and previous cameras,
traversal cursor, pivot radius, deferred-resolution flag, sub-controllers). -/
theorem switchMode_same (s : InteractiveCameraHandler) :
    s.switchMode s._currentMode = s := by
  unfold InteractiveCameraHandler.switchMode
  rw [if_pos rfl]

/-- C7. Extension dispatch of `safeLoad`: with the extension `.out` it runs
`loadBundle` and returns true, whatever `loadBundle` read; with the extension
`.path` it returns what `load` returns (boolean and recorder); with any other
extension it returns false and leaves the recorder (path, state, cursor) as it
was. -/
theorem safeLoad_dispatch (W : World) (filename : String) (w h : Int) (r : CameraRecorder) :
    (W.extension filename = ".out" →
        r.safeLoad W filename w h = (true, r.loadBundle W filename w h))
      ∧ (W.extension filename = ".path" →
        r.safeLoad W filename w h = r.load W.layout (W.binaryFile filename))
      ∧ (W.extension filename ≠ ".out" → W.extension filename ≠ ".path" →
        r.safeLoad W filename w h = (false, r)) := by
  unfold CameraRecorder.safeLoad
  refine ⟨?_, ?_, ?_⟩
  · intro h1; rw [if_pos h1]
  · intro h2
    have h1 : W.extension filename ≠ ".out" := by rw [h2]; decide
    rw [if_neg h1, if_pos h2]
  · intro h1 h2; rw [if_neg h1, if_neg h2]

/-- C7, witness: `scene.out` runs the bundle loader and gives true, `scene.path`
gives what `load` gives, `scene.xyz` gives false and the recorder unchanged. -/
theorem safeLoad_dispatch_witness :
    (recorderWith [camA]).safeLoad sampleWorld "scene.out" 1920 1080
        = (true, (recorderWith [camA]).loadBundle sampleWorld "scene.out" 1920 1080)
      ∧ (recorderWith [camA]).safeLoad sampleWorld "scene.path" 1920 1080
        = (recorderWith [camA]).load sampleLayout none
      ∧ (recorderWith [camA]).safeLoad sampleWorld "scene.xyz" 1920 1080
        = (false, recorderWith [camA]) :=
  ⟨(safeLoad_dispatch sampleWorld "scene.out" 1920 1080 (recorderWith [camA])).1 (by decide),
   (safeLoad_dispatch sampleWorld "scene.path" 1920 1080 (recorderWith [camA])).2.1 (by decide),
   (safeLoad_dispatch sampleWorld "scene.xyz" 1920 1080 (recorderWith [camA])).2.2
      (by decide) (by decide)⟩

/-! ### Bundle export -/

theorem mem_of_mem_bundleLoop (step : Nat) (cams : List Camera) (fuel : Nat) :
    ∀ (i : Nat) (c : Camera), c ∈ bundleLoop step cams fuel i → c ∈ cams := by
  induction fuel with
  | zero => intro i c h; simp [bundleLoop] at h
  | succ fuel ih =>
    intro i c h
    unfold bundleLoop at h
    split at h
    · rcases List.mem_cons.mp h with rfl | h'
      · exact List.getElem_mem _
      · exact ih _ _ h'
    · simp at h

theorem bundleLoop_fuel (step : Nat) (cams : List Camera) (hstep : 1 ≤ step) (fuel : Nat) :
    ∀ i : Nat, cams.length ≤ fuel + i →
      bundleLoop step cams (fuel + 1) i = bundleLoop step cams fuel i := by
  induction fuel with
  | zero =>
    intro i h
    have hi : ¬ i < cams.length := by omega
    simp [bundleLoop, hi]
  | succ fuel ih =>
    intro i h
    have e := ih (i + step) (by omega)
    show bundleLoop step cams (fuel + 1 + 1) i = bundleLoop step cams (fuel + 1) i
    rw [bundleLoop, bundleLoop.eq_def step cams (fuel + 1) i]
    simp only [e]

theorem bundleLoop_ne_nil (step : Nat) (cams : List Camera) (hne : cams ≠ []) :
    bundleLoop step cams cams.length 0 ≠ [] := by
  cases cams with
  | nil => exact absurd rfl hne
  | cons c cs => simp [bundleLoop]

/-- C8. Bundle focal computation: when `saveAsBundle` writes (stream good, path not
empty, stride at least 1), every record written is the record of a camera of the
path, its first value is `0.5 * height / tan(fovy / 2)` and its next two values
are 0; for `height = 1080` and a field of view with `tan(fovy / 2) = 1` the focal
written is 540. -/
theorem bundle_focal (M : Libm) (height : Int) (step : Nat) (r : CameraRecorder)
    (hne : r._cameras ≠ []) (hstep : 1 ≤ step) :
    ∃ out : BundleOutput, r.saveAsBundle M true height step = some out
      ∧ out.records ≠ []
      ∧ ∀ rec ∈ out.records, ∃ cam ∈ r._cameras, rec = bundleRecord M height cam
          ∧ rec[0]? = some (1 / 2 * (height : ℚ) / M.tan (cam.fovy / 2))
          ∧ rec[1]? = some 0 ∧ rec[2]? = some 0
          ∧ (height = 1080 → M.tan (cam.fovy / 2) = 1 → rec[0]? = some 540) := by
  have he : r._cameras.isEmpty = false := by
    cases hc : r._cameras with
    | nil => exact absurd hc hne
    | cons c cs => rfl
  have hs : step ≠ 0 := by omega
  refine ⟨{ size := ((r._cameras.length / step : Nat) : Int)
            records := (bundleLoop step r._cameras r._cameras.length 0).map
              (bundleRecord M height) }, ?_, ?_, ?_⟩
  · unfold CameraRecorder.saveAsBundle
    simp only [Bool.not_true, Bool.false_eq_true, if_false, he, hs]
  · simp only [ne_eq, List.map_eq_nil_iff]
    exact bundleLoop_ne_nil step r._cameras hne
  · intro rec hrec
    obtain ⟨cam, hcam, rfl⟩ := List.mem_map.mp hrec
    refine ⟨cam, mem_of_mem_bundleLoop _ _ _ _ _ hcam, rfl, rfl, rfl, rfl, ?_⟩
    intro hh ht
    simp only [bundleRecord, List.getElem?_cons_zero, Option.some.injEq]
    rw [ht, hh]
    norm_num

/-- C8, witness: one keyframe with `tan(fovy / 2) = 1`, height 1080, stride 1. -/
theorem bundle_focal_witness :
    ∃ out : BundleOutput,
      (recorderWith [camA]).saveAsBundle sampleLibm true 1080 1 = some out
        ∧ out.records ≠ [] :=
  (bundle_focal sampleLibm 1080 1 (recorderWith [camA]) (List.cons_ne_nil _ _)
    (le_refl 1)).imp (fun _ h => ⟨h.1, h.2.1⟩)

/-- The same branch at speed 0.5: the first `use` after `playback()` on
`[camA, camB]` does not advance (`0 >= 0.5` is false) and writes the pose
interpolated from `camA` towards `camB`. -/
theorem use_first_at_half_speed :
    Camera.SamePose
      (CameraRecorder.use sampleLibm ((recorderWith [camA, camB]).setSpeed (1 / 2)).playback
        camC).2
      (Camera.interpolate sampleLibm camA camB (clampFactor 0)) := by
  have hadv : ¬ (((recorderWith [camA, camB]).setSpeed (1 / 2)).playback)._interp
      ≥ fl32 (1 - (((recorderWith [camA, camB]).setSpeed (1 / 2)).playback)._speed) := by
    show ¬ ((0 : ℚ) ≥ fl32 (1 - 1 / 2))
    rw [fl32_one_sub_half]
    norm_num
  have hpose := samePose_use_playing sampleLibm
    ((recorderWith [camA, camB]).setSpeed (1 / 2)).playback camC rfl rfl (by decide)
  rw [CameraRecorder.advance_of_lt _ hadv] at hpose
  exact hpose

/-! ### Frame effects of `use`, `stop`, `reset`, `load` -/

theorem use_of_recording (M : Libm) (r : CameraRecorder) (cam : Camera)
    (h : r._recording = true) :
    CameraRecorder.use M r cam = ({ r with _cameras := r._cameras ++ [cam] }, cam) := by
  unfold CameraRecorder.use
  rw [if_pos h]

theorem use_of_idle (M : Libm) (r : CameraRecorder) (cam : Camera)
    (h1 : r._recording = false) (h2 : ¬ (r._playing = true ∧ r._pos < r._cameras.length)) :
    CameraRecorder.use M r cam = (r, (cam.setSavePath "").setDebugVideo false) := by
  unfold CameraRecorder.use
  rw [if_neg (by simp [h1]), if_neg h2]

/-- C11. Clip-plane preservation during playback: for every call of `use` with the
recorder playing and the cursor index within bounds, the near and far distances
of the camera after the call are those it had before the call, whatever the
keyframes carry. -/
theorem use_preserves_clip_planes (M : Libm) (r : CameraRecorder) (cam : Camera)
    (h2 : r._playing = true) (h3 : r._pos < r._cameras.length) :
    (CameraRecorder.use M r cam).2.znear = cam.znear
      ∧ (CameraRecorder.use M r cam).2.zfar = cam.zfar := by
  cases h1 : r._recording with
  | true => rw [use_of_recording M r cam h1]; exact ⟨rfl, rfl⟩
  | false =>
    rw [use_snd_playing M r cam h1 h2 h3]
    cases r._savingVideo <;> cases r._saving <;> exact ⟨rfl, rfl⟩

/-- C11, witness: playing `[camA, camB]`, whose keyframes have near 1 and far 100,
into a camera with near 7 and far 9. -/
theorem use_preserves_clip_planes_witness :
    (CameraRecorder.use sampleLibm (recorderWith [camA, camB]).playback
        { camC with znear := 7, zfar := 9 }).2.znear = 7
      ∧ (CameraRecorder.use sampleLibm (recorderWith [camA, camB]).playback
        { camC with znear := 7, zfar := 9 }).2.zfar = 9 :=
  use_preserves_clip_planes sampleLibm (recorderWith [camA, camB]).playback
    { camC with znear := 7, zfar := 9 } rfl (by decide)

/-- C12. Idle pass-through: a call of `use` while the recorder is neither recording
nor playing empties the save path of the camera and clears its video flag, leaves
its pose, intrinsics and clip planes as they were, and leaves the recorder (path,
state, cursor) as it was. -/
theorem use_idle (M : Libm) (r : CameraRecorder) (cam : Camera)
    (h1 : r._recording = false) (h2 : r._playing = false) :
    (CameraRecorder.use M r cam).2.savePath = ""
      ∧ (CameraRecorder.use M r cam).2.debugVideo = false
      ∧ (CameraRecorder.use M r cam).2.position = cam.position
      ∧ (CameraRecorder.use M r cam).2.rotation = cam.rotation
      ∧ (CameraRecorder.use M r cam).2.fovy = cam.fovy
      ∧ (CameraRecorder.use M r cam).2.aspect = cam.aspect
      ∧ (CameraRecorder.use M r cam).2.znear = cam.znear
      ∧ (CameraRecorder.use M r cam).2.zfar = cam.zfar
      ∧ (CameraRecorder.use M r cam).1 = r := by
  rw [use_of_idle M r cam h1 (by simp [h2])]
  exact ⟨rfl, rfl, rfl, rfl, rfl, rfl, rfl, rfl, rfl⟩

/-- C12, witness: an idle recorder and a camera that carries an output tag. -/
theorem use_idle_witness :
    (CameraRecorder.use sampleLibm (recorderWith [camA])
        { camB with savePath := "out/00000003.png", debugVideo := true }).2.savePath = ""
      ∧ (CameraRecorder.use sampleLibm (recorderWith [camA])
        { camB with savePath := "out/00000003.png", debugVideo := true }).1
          = recorderWith [camA] :=
  ⟨(use_idle sampleLibm (recorderWith [camA])
      { camB with savePath := "out/00000003.png", debugVideo := true } rfl rfl).1,
   (use_idle sampleLibm (recorderWith [camA])
      { camB with savePath := "out/00000003.png", debugVideo := true } rfl rfl).2.2.2.2.2.2.2.2⟩

/-- C13. `stop()` and `reset()`: `stop()` leaves the recorder neither recording nor
playing with the cursor at (0, 0) and the path, the speed and the saving flags
unchanged; `reset()` does the same and leaves the path empty. -/
theorem stop_reset_effect (r : CameraRecorder) :
    (r.stop.isRecording = false ∧ r.stop.isPlaying = false ∧ r.stop._pos = 0
        ∧ r.stop._interp = 0 ∧ r.stop._cameras = r._cameras ∧ r.stop._speed = r._speed
        ∧ r.stop._saving = r._saving ∧ r.stop._savingPath = r._savingPath
        ∧ r.stop._savingVideo = r._savingVideo
        ∧ r.stop._savingVideoPath = r._savingVideoPath)
      ∧ (r.reset.isRecording = false ∧ r.reset.isPlaying = false ∧ r.reset._pos = 0
        ∧ r.reset._interp = 0 ∧ r.reset._cameras = [] ∧ r.reset._speed = r._speed
        ∧ r.reset._saving = r._saving ∧ r.reset._savingPath = r._savingPath
        ∧ r.reset._savingVideo = r._savingVideo
        ∧ r.reset._savingVideoPath = r._savingVideoPath)
      ∧ r.reset = { r.stop with _cameras := [] } :=
  ⟨⟨rfl, rfl, rfl, rfl, rfl, rfl, rfl, rfl, rfl, rfl⟩,
   ⟨rfl, rfl, rfl, rfl, rfl, rfl, rfl, rfl, rfl, rfl⟩, rfl⟩

/-- C16. `load` failure: when the file cannot be opened, `load` returns false and
leaves the path empty, the recorder neither recording nor playing and the cursor
at (0, 0), whatever the state and the path before the call. -/
theorem load_unopenable (L : Layout) (r : CameraRecorder) :
    (r.load L none).1 = false
      ∧ (r.load L none).2._cameras = []
      ∧ (r.load L none).2.isRecording = false
      ∧ (r.load L none).2.isPlaying = false
      ∧ (r.load L none).2._pos = 0
      ∧ (r.load L none).2._interp = 0
      ∧ (r.load L none).2 = r.reset :=
  ⟨rfl, rfl, rfl, rfl, rfl, rfl, rfl⟩

/-! ### Reachable recorder states -/

theorem advance_flags (r : CameraRecorder) :
    r.advance._recording = r._recording ∧ r.advance._playing = r._playing := by
  unfold CameraRecorder.advance; split <;> exact ⟨rfl, rfl⟩

theorem use_fst_cases (M : Libm) (r : CameraRecorder) (cam : Camera) :
    (CameraRecorder.use M r cam).1 = { r with _cameras := r._cameras ++ [cam] }
      ∨ (CameraRecorder.use M r cam).1 = r
      ∨ (r._recording = false ∧ r._playing = true ∧ r._pos < r._cameras.length
          ∧ ((CameraRecorder.use M r cam).1
                = { r.advance with _interp := fl32 (r.advance._interp + r._speed) }
              ∨ (CameraRecorder.use M r cam).1
                = { r.advance with _interp := fl32 (r.advance._interp + r._speed) }.stop)) := by
  rcases Bool.eq_false_or_eq_true r._recording with h1 | h1
  · left; rw [use_of_recording M r cam h1]
  · by_cases h2 : r._playing = true ∧ r._pos < r._cameras.length
    · right; right
      refine ⟨h1, h2.1, h2.2, ?_⟩
      rw [CameraRecorder.use_fst_playing M r cam h1 h2.1 h2.2]
      split
      · right; rfl
      · left; rfl
    · right; left; rw [use_of_idle M r cam h1 h2]

theorem load_snd (L : Layout) (file : Option (List Nat)) (r : CameraRecorder) :
    ∃ cs : List Camera, (r.load L file).2 = { r.reset with _cameras := cs } := by
  cases file with
  | none => exact ⟨[], rfl⟩
  | some bytes => exact ⟨_, rfl⟩

theorem loadBundle_eq (W : World) (filePath : String) (w h : Int) (r : CameraRecorder) :
    ∃ cs : List Camera, r.loadBundle W filePath w h = { r with _cameras := r._cameras ++ cs } :=
  ⟨_, rfl⟩

theorem safeLoad_snd (W : World) (filename : String) (w h : Int) (r : CameraRecorder) :
    (∃ cs : List Camera, (r.safeLoad W filename w h).2 = { r with _cameras := cs })
      ∨ ∃ cs : List Camera, (r.safeLoad W filename w h).2 = { r.reset with _cameras := cs } := by
  unfold CameraRecorder.safeLoad
  split
  · left; exact ⟨_, rfl⟩
  · split
    · right; exact load_snd _ _ _
    · left; exact ⟨r._cameras, rfl⟩

theorem use_flags (M : Libm) (r : CameraRecorder) (cam : Camera) :
    ((CameraRecorder.use M r cam).1._recording = true → r._recording = true)
      ∧ ((CameraRecorder.use M r cam).1._playing = true → r._playing = true)
      ∧ (CameraRecorder.use M r cam).1._speed = r._speed := by
  rcases use_fst_cases M r cam with e | e | ⟨h1, h2, _, e | e⟩
  · rw [e]; exact ⟨id, id, rfl⟩
  · rw [e]; exact ⟨id, id, rfl⟩
  · rw [e]
    refine ⟨?_, fun _ => h2, CameraRecorder.advance_speed r⟩
    intro h; rw [← (advance_flags r).1]; exact h
  · rw [e]
    refine ⟨?_, fun _ => h2, CameraRecorder.advance_speed r⟩
    intro h; exact absurd h (by simp [CameraRecorder.stop])

theorem reachable_exclusive (M : Libm) (W : World) (r0 r : CameraRecorder)
    (h0 : ¬ (r0._recording = true ∧ r0._playing = true))
    (h : CameraRecorder.ReachableFrom M W r0 r) :
    ¬ (r._recording = true ∧ r._playing = true) := by
  induction h with
  | start => exact h0
  | record r _ _ => intro h; exact absurd h.2 (by simp [CameraRecorder.record, CameraRecorder.stop])
  | playback r _ _ =>
    intro h; exact absurd h.1 (by simp [CameraRecorder.playback, CameraRecorder.stop])
  | stop r _ _ => intro h; exact absurd h.1 (by simp [CameraRecorder.stop])
  | reset r _ _ => intro h; exact absurd h.1 (by simp [CameraRecorder.reset, CameraRecorder.stop])
  | use r cam _ ih =>
    intro h
    exact ih ⟨(use_flags M r cam).1 h.1, (use_flags M r cam).2.1 h.2⟩
  | load r filename _ _ =>
    intro h
    obtain ⟨cs, e⟩ := load_snd W.layout (W.binaryFile filename) r
    rw [e] at h
    exact absurd h.1 (by simp [CameraRecorder.reset, CameraRecorder.stop])
  | safeLoad r filename w h' _ ih =>
    intro h
    rcases safeLoad_snd W filename w h' r with ⟨cs, e⟩ | ⟨cs, e⟩
    · rw [e] at h; exact ih h
    · rw [e] at h
      exact absurd h.1 (by simp [CameraRecorder.reset, CameraRecorder.stop])
  | loadBundle r filePath w h' _ ih => exact ih
  | saving r savePath _ ih => exact ih
  | savingVideo r saveVideo _ ih => exact ih
  | stopSaving r _ ih => exact ih

/-- C14. Recorder-state exclusivity: in every state reachable from the constructor by
calls of `record`, `playback`, `stop`, `reset`, `use`, `load`, `safeLoad`,
`loadBundle`, `saving`, `savingVideo` and `stopSaving`, the recorder is not recording
and playing at the same time; and from every state `record()` and `playback()`
leave the cursor at (0, 0) and the path unchanged. -/
theorem state_exclusive (M : Libm) (W : World) (b : Bool) (r : CameraRecorder)
    (h : CameraRecorder.ReachableFrom M W (CameraRecorder.create b) r) :
    ¬ (r.isRecording = true ∧ r.isPlaying = true)
      ∧ ∀ r' : CameraRecorder,
          (r'.record._pos = 0 ∧ r'.record._interp = 0 ∧ r'.record._cameras = r'._cameras
            ∧ r'.record.isRecording = true ∧ r'.record.isPlaying = false)
          ∧ (r'.playback._pos = 0 ∧ r'.playback._interp = 0
            ∧ r'.playback._cameras = r'._cameras
            ∧ r'.playback.isPlaying = true ∧ r'.playback.isRecording = false) := by
  refine ⟨reachable_exclusive M W _ r (by simp [CameraRecorder.create]) h, ?_⟩
  intro r'
  exact ⟨⟨rfl, rfl, rfl, rfl, rfl⟩, ⟨rfl, rfl, rfl, rfl, rfl⟩⟩

/-- C14, witness: the state after `record()`, `use(camA)`, `playback()` from a new
recorder. -/
theorem state_exclusive_witness :
    ¬ ((CameraRecorder.use sampleLibm (CameraRecorder.create false).record camA).1.playback.isRecording
          = true
        ∧ (CameraRecorder.use sampleLibm (CameraRecorder.create false).record camA).1.playback.isPlaying
          = true) :=
  (state_exclusive sampleLibm sampleWorld false _
    (CameraRecorder.ReachableFrom.playback _
      (CameraRecorder.ReachableFrom.use _ camA
        (CameraRecorder.ReachableFrom.record _ CameraRecorder.ReachableFrom.start)))).1

theorem create_setSpeed_one (b : Bool) :
    (CameraRecorder.create b).setSpeed 1 = CameraRecorder.create b := rfl

/-- C17, the code at the failing input: three keyframes and stride 2.  The count
written on line 2 is 1 (`3 / 2`), and two records follow (indices 0 and 2). -/
theorem bundle_header_count_mismatch :
    ((recorderWith [camA, camB, camC]).saveAsBundle sampleLibm true 1080 2).map
        (fun out => (out.size, out.records.length)) = some (1, 2)
      ∧ bundleLoop 2 [camA, camB, camC] 3 0 = [camA, camC] := by
  constructor
  · decide
  · rfl

theorem bundleLoop_getElem? (step : Nat) (cams : List Camera) (hstep : 1 ≤ step) (fuel : Nat) :
    ∀ i k : Nat, cams.length ≤ fuel + i →
      (bundleLoop step cams fuel i)[k]? = cams[i + k * step]? := by
  induction fuel with
  | zero =>
    intro i k h
    have hi : cams.length ≤ i + k * step := by
      have := Nat.zero_le (k * step)
      omega
    simp [bundleLoop, List.getElem?_eq_none hi]
  | succ fuel ih =>
    intro i k h
    unfold bundleLoop
    by_cases hi : i < cams.length
    · rw [dif_pos hi]
      cases k with
      | zero => simp [List.getElem?_eq_getElem hi]
      | succ k =>
        rw [List.getElem?_cons_succ, ih (i + step) k (by omega)]
        have e : i + step + k * step = i + (k + 1) * step := by ring
        rw [e]
    · rw [dif_neg hi]
      have hi' : cams.length ≤ i + k * step := by
        have := Nat.zero_le (k * step)
        omega
      simp [List.getElem?_eq_none hi']

/-! ### Mode switch, traversal path, nearest camera -/

theorem fromCamera_frame (s : InteractiveCameraHandler) (cam : InputCamera)
    (interpolate updateResolution : Bool) :
    (s.fromCamera cam interpolate updateResolution)._startCam = s._startCam
      ∧ (s.fromCamera cam interpolate updateResolution)._currentMode = s._currentMode
      ∧ (s.fromCamera cam interpolate updateResolution)._interpPath = s._interpPath
      ∧ (s.fromCamera cam interpolate updateResolution)._currentCamera.position = cam.position
      ∧ (s.fromCamera cam interpolate updateResolution)._currentCamera.rotation
          = cam.rotation := by
  unfold InteractiveCameraHandler.fromCamera
  simp only []
  repeat' split
  all_goals exact ⟨rfl, rfl, rfl, rfl, rfl⟩

theorem switchMode_of_ne (s : InteractiveCameraHandler) (X : InteractionMode)
    (h : s._currentMode ≠ X) :
    s.switchMode X =
      { ({ s with _currentMode := X } : InteractiveCameraHandler).fromCamera s._currentCamera
          s._shouldSmooth updateResolutionDefault with _interpFactor := 0 } := by
  unfold InteractiveCameraHandler.switchMode
  rw [if_neg h]

theorem switchMode_startCam (s : InteractiveCameraHandler) (X : InteractionMode) :
    (s.switchMode X)._startCam = s._startCam := by
  by_cases h : s._currentMode = X
  · unfold InteractiveCameraHandler.switchMode; rw [if_pos h]
  · rw [switchMode_of_ne s X h]
    exact (fromCamera_frame _ _ _ _).1

/-- C18 (as amended). Mode transition: for every handler state and every mode `X`
different from the current mode, after `switchMode(X)` the current mode is `X`, the
position and orientation of the canonical camera are unchanged, the factor of the
traversal cursor is 0, and the segment of the traversal cursor is the one it was
before the call. -/
theorem switchMode_transition (s : InteractiveCameraHandler) (X : InteractionMode)
    (h : s._currentMode ≠ X) :
    (s.switchMode X)._currentMode = X
      ∧ (s.switchMode X)._currentCamera.position = s._currentCamera.position
      ∧ (s.switchMode X)._currentCamera.rotation = s._currentCamera.rotation
      ∧ (s.switchMode X)._interpFactor = 0
      ∧ (s.switchMode X)._startCam = s._startCam := by
  rw [switchMode_of_ne s X h]
  have hf := fromCamera_frame ({ s with _currentMode := X } : InteractiveCameraHandler)
    s._currentCamera s._shouldSmooth updateResolutionDefault
  exact ⟨hf.2.1, hf.2.2.2.1, hf.2.2.2.2, rfl, hf.1⟩

/-- C18, witness: from FPS mode to orbit mode. -/
theorem switchMode_transition_witness :
    (sampleHandlerAtSegment3.switchMode InteractionMode.ORBIT)._currentMode
        = InteractionMode.ORBIT
      ∧ (sampleHandlerAtSegment3.switchMode InteractionMode.ORBIT)._interpFactor = 0 :=
  ⟨(switchMode_transition sampleHandlerAtSegment3 InteractionMode.ORBIT (by decide)).1,
   (switchMode_transition sampleHandlerAtSegment3 InteractionMode.ORBIT (by decide)).2.2.2.1⟩

/-- C18, counterexample: a handler in FPS mode whose traversal cursor is at segment
3.  After `switchMode(ORBIT)` the segment is still 3: the cursor is (3, 0), not
(0, 0). -/
theorem switchMode_keeps_segment :
    sampleHandlerAtSegment3._currentMode ≠ InteractionMode.ORBIT
      ∧ (sampleHandlerAtSegment3.switchMode InteractionMode.ORBIT)._startCam = 3
      ∧ ¬ ((sampleHandlerAtSegment3.switchMode InteractionMode.ORBIT)._startCam = 0
          ∧ (sampleHandlerAtSegment3.switchMode InteractionMode.ORBIT)._interpFactor = 0) := by
  have h3 : (sampleHandlerAtSegment3.switchMode InteractionMode.ORBIT)._startCam = 3 :=
    switchMode_startCam sampleHandlerAtSegment3 InteractionMode.ORBIT
  refine ⟨by decide, h3, ?_⟩
  intro h
  rw [h3] at h
  exact absurd h.1 (by decide)

theorem interpPathLoop_eq (cs : List InputCamera) :
    ∀ path : List InputCamera,
      InteractiveCameraHandler.interpPathLoop cs path
        = path ++ cs.filter (fun c => c.isActive) := by
  induction cs with
  | nil => intro path; simp [InteractiveCameraHandler.interpPathLoop]
  | cons c cs ih =>
    intro path
    unfold InteractiveCameraHandler.interpPathLoop
    by_cases hc : c.isActive = true
    · rw [if_pos hc, ih, List.filter_cons_of_pos hc]
      simp
    · rw [if_neg hc, ih, List.filter_cons_of_neg hc]

/-- C19. `setupInterpolationPath`: the traversal path after the call is the
sub-list of the active cameras of the argument, in their original order, whatever
the handler (and its traversal path) was before; its length is the number of
active cameras, and a second call with the same list gives the same path. -/
theorem setupInterpolationPath_active (s s' : InteractiveCameraHandler)
    (cameras : List InputCamera) :
    (s.setupInterpolationPath cameras)._interpPath = cameras.filter (fun c => c.isActive)
      ∧ List.Sublist (s.setupInterpolationPath cameras)._interpPath cameras
      ∧ (∀ c : InputCamera, c ∈ (s.setupInterpolationPath cameras)._interpPath
          ↔ c ∈ cameras ∧ c.isActive = true)
      ∧ (s.setupInterpolationPath cameras)._interpPath.length
          = cameras.countP (fun c => c.isActive)
      ∧ (s'.setupInterpolationPath cameras)._interpPath
          = (s.setupInterpolationPath cameras)._interpPath
      ∧ ((s.setupInterpolationPath cameras).setupInterpolationPath cameras)._interpPath
          = (s.setupInterpolationPath cameras)._interpPath := by
  have e : ∀ t : InteractiveCameraHandler,
      (t.setupInterpolationPath cameras)._interpPath = cameras.filter (fun c => c.isActive) := by
    intro t
    show InteractiveCameraHandler.interpPathLoop cameras [] = _
    rw [interpPathLoop_eq, List.nil_append]
  rw [e s, e s', e (s.setupInterpolationPath cameras)]
  refine ⟨rfl, List.filter_sublist _, ?_, ?_, rfl, rfl⟩
  · intro c; exact List.mem_filter
  · rw [List.countP_eq_length_filter]

theorem findNearestLoop_none_active (M : Libm) (pos : Vector3f) (cs : List InputCamera) :
    (∀ c ∈ cs, c.isActive = false) → ∀ (i : Nat) (acc : Int × ℚ),
      InteractiveCameraHandler.findNearestLoop M pos cs i acc = acc := by
  induction cs with
  | nil => intro _ i acc; rfl
  | cons c cs ih =>
    intro h i acc
    unfold InteractiveCameraHandler.findNearestLoop
    rw [if_pos (h c (List.mem_cons_self _ _))]
    exact ih (fun c' hc' => h c' (List.mem_cons_of_mem _ hc')) _ _

theorem findNearestCamera_none_active (M : Libm) (s : InteractiveCameraHandler)
    (cams : List InputCamera) (hne : cams ≠ []) (h : ∀ c ∈ cams, c.isActive = false) :
    s.findNearestCamera M cams = 0 := by
  cases cams with
  | nil => exact absurd rfl hne
  | cons c0 rest =>
    unfold InteractiveCameraHandler.findNearestCamera
    simp only []
    rw [findNearestLoop_none_active M _ rest (fun c hc => h c (List.mem_cons_of_mem _ hc))]

/-- C20, the code at the failing input: two cameras, both inactive.  The list is
not empty and holds no active camera, and `findNearestCamera` returns 0 (the
index of the first, inactive camera), not -1; it returns -1 on the empty list. -/
theorem findNearestCamera_no_active_returns_zero :
    (∀ c ∈ [inactiveCameraAt 1 0 0, inactiveCameraAt 2 0 0], c.isActive = false)
      ∧ sampleHandler.findNearestCamera sampleLibm
          [inactiveCameraAt 1 0 0, inactiveCameraAt 2 0 0] = 0
      ∧ sampleHandler.findNearestCamera sampleLibm [] = -1 := by
  have h : ∀ c ∈ [inactiveCameraAt 1 0 0, inactiveCameraAt 2 0 0], c.isActive = false := by
    intro c hc
    simp only [List.mem_cons, List.mem_singleton, List.not_mem_nil, or_false] at hc
    rcases hc with rfl | rfl <;> rfl
  exact ⟨h, findNearestCamera_none_active sampleLibm sampleHandler _ (List.cons_ne_nil _ _) h,
    rfl⟩

/-! ### Playback over short paths -/

theorem useAll_empty_path (M : Libm) (live : List Camera) :
    ∀ r : CameraRecorder, r._recording = false → r._cameras = [] →
      CameraRecorder.useAll M r live
        = (r, live.map (fun c => (c.setSavePath "").setDebugVideo false)) := by
  induction live with
  | nil => intro r _ _; rfl
  | cons c cs ih =>
    intro r h1 h2
    have hidle : ¬ (r._playing = true ∧ r._pos < r._cameras.length) := by
      rw [h2]; simp
    simp only [CameraRecorder.useAll, use_of_idle M r c h1 hidle, ih r h1 h2, List.map_cons]

/-- C29. Playback over short paths: with an empty path, after `playback()` every
sequence of calls of `use` leaves the recorder as `playback()` left it (playing,
cursor (0, 0)) and only clears the output tag of each camera, so the automatic
`stop()` is never reached; with a path of exactly one keyframe and speed 1 the
first call of `use` stops the playback. -/
theorem playback_short_paths (M : Libm) (r : CameraRecorder) (live : List Camera)
    (cam : Camera) :
    (r._cameras = [] →
        (CameraRecorder.useAll M r.playback live).1 = r.playback
          ∧ (CameraRecorder.useAll M r.playback live).1.isPlaying = true
          ∧ (CameraRecorder.useAll M r.playback live).1._pos = 0
          ∧ (CameraRecorder.useAll M r.playback live).1._interp = 0
          ∧ (CameraRecorder.useAll M r.playback live).2
              = live.map (fun c => (c.setSavePath "").setDebugVideo false))
      ∧ (r._cameras.length = 1 → r._speed = 1 →
          (CameraRecorder.use M r.playback cam).1.isPlaying = false
            ∧ (CameraRecorder.use M r.playback cam).1._pos = 0
            ∧ (CameraRecorder.use M r.playback cam).1._interp = 0) := by
  constructor
  · intro h
    rw [useAll_empty_path M live r.playback rfl h]
    exact ⟨rfl, rfl, rfl, rfl, rfl⟩
  · intro hl hs
    have h0 := CameraRecorder.playingAt_playback r hs
    exact CameraRecorder.use_last_speed_one M r.playback cam 0 r._cameras.length h0
      (by omega)

/-- C29, witness: a new recorder (empty path) played over three calls, and the
one-keyframe path `[camA]`. -/
theorem playback_short_paths_witness :
    (CameraRecorder.useAll sampleLibm (recorderWith []).playback [camA, camB, camC]).1.isPlaying
        = true
      ∧ (CameraRecorder.use sampleLibm (recorderWith [camA]).playback camB).1.isPlaying
        = false :=
  ⟨((playback_short_paths sampleLibm (recorderWith []) [camA, camB, camC] camA).1 rfl).2.1,
   ((playback_short_paths sampleLibm (recorderWith [camA]) [] camB).2 rfl rfl).1⟩

/-! ### `loadBundle` -/

/-- C30. `loadBundle` appends: for a recorder whose path is `p` and a bundle file
that declares `n` cameras, after `loadBundle` the path is `p` followed by `n` new
cameras in file order (camera `i` is built from the values `15 i` to `15 i + 14`),
each with near 0.2 and far 250; the recorder state and cursor are unchanged; and
`safeLoad` on a `.out` file keeps `p` as the head of the path. -/
theorem loadBundle_appends (W : World) (filePath : String) (w h : Int) (r : CameraRecorder)
    (t : BundleText) (ht : W.bundleFile filePath = some t) :
    (r.loadBundle W filePath w h)._cameras
        = r._cameras ++ (List.range t.numImages).map (bundleKeyframe W t w h)
      ∧ ((List.range t.numImages).map (bundleKeyframe W t w h)).length = t.numImages
      ∧ (∀ c ∈ (List.range t.numImages).map (bundleKeyframe W t w h),
          c.znear = 1 / 5 ∧ c.zfar = 250)
      ∧ (r.loadBundle W filePath w h)._recording = r._recording
      ∧ (r.loadBundle W filePath w h)._playing = r._playing
      ∧ (r.loadBundle W filePath w h)._pos = r._pos
      ∧ (r.loadBundle W filePath w h)._interp = r._interp
      ∧ (W.extension filePath = ".out" →
          (r.safeLoad W filePath w h).1 = true
            ∧ (r.safeLoad W filePath w h).2._cameras
                = r._cameras ++ (List.range t.numImages).map (bundleKeyframe W t w h)) := by
  have e : (r.loadBundle W filePath w h)._cameras
      = r._cameras ++ (List.range t.numImages).map (bundleKeyframe W t w h) := by
    unfold CameraRecorder.loadBundle
    simp only [ht, List.map_map]
    rfl
  refine ⟨e, by simp, ?_, rfl, rfl, rfl, rfl, ?_⟩
  · intro c hc
    obtain ⟨i, _, rfl⟩ := List.mem_map.mp hc
    exact ⟨rfl, rfl⟩
  · intro hx
    unfold CameraRecorder.safeLoad
    rw [if_pos hx]
    exact ⟨rfl, e⟩

/-- C30, witness: the bundle file `scene.out` of two cameras loaded after the path
`[camA]`: the path has three keyframes and starts with `camA`. -/
theorem loadBundle_appends_witness :
    ((recorderWith [camA]).loadBundle sampleBundleWorld "scene.out" 1920 1080)._cameras
      = [camA] ++ (List.range 2).map
          (bundleKeyframe sampleBundleWorld
            { numImages := 2
              values := [500, 0, 0, 1, 0, 0, 0, 1, 0, 0, 0, 1, 0, 0, 0,
                         600, 0, 0, 1, 0, 0, 0, 1, 0, 0, 0, 1, 4, 5, 6] } 1920 1080) :=
  (loadBundle_appends sampleBundleWorld "scene.out" 1920 1080 (recorderWith [camA]) _
    (by simp [sampleBundleWorld])).1

/-! ### Nearest camera and inactive cameras -/

/-- C21, the code at the failing input: an inactive camera at distance 3 at index 0
and an active camera at distance 5 at index 1.  The list holds an active camera,
and `findNearestCamera` returns 0, the index of the inactive camera. -/
theorem findNearestCamera_returns_inactive :
    (inputCameraAt 5 0 0).isActive = true
      ∧ ([inactiveCameraAt 3 0 0, inputCameraAt 5 0 0][0]?).map InputCamera.isActive
          = some false
      ∧ sampleHandler.findNearestCamera sampleLibm
          [inactiveCameraAt 3 0 0, inputCameraAt 5 0 0] = 0 := by
  refine ⟨rfl, rfl, ?_⟩
  unfold InteractiveCameraHandler.findNearestCamera
  simp only [InteractiveCameraHandler.findNearestLoop]
  rw [if_neg (by decide)]
  have h : ¬ (((inputCameraAt 5 0 0).position.sub sampleHandler._currentCamera.position).norm
      sampleLibm
        < ((inactiveCameraAt 3 0 0).position.sub sampleHandler._currentCamera.position).norm
      sampleLibm) := by
    norm_num [Vector3f.norm, Vector3f.sub, sampleLibm, inputCameraAt, inactiveCameraAt,
      sampleHandler, default]
  simp only [h, if_false]

/-! ### FRIBR export against bundle export -/

theorem bundleRecord_rows (M : Libm) (height : Int) (cam : Camera) :
    bundleRecord M height cam =
      [1 / 2 * (height : ℚ) / M.tan (cam.fovy / 2), 0, 0,
       cam.rotation.toRotationMatrix.transpose.m00, cam.rotation.toRotationMatrix.transpose.m01,
       cam.rotation.toRotationMatrix.transpose.m02,
       cam.rotation.toRotationMatrix.transpose.m10, cam.rotation.toRotationMatrix.transpose.m11,
       cam.rotation.toRotationMatrix.transpose.m12,
       cam.rotation.toRotationMatrix.transpose.m20, cam.rotation.toRotationMatrix.transpose.m21,
       cam.rotation.toRotationMatrix.transpose.m22,
       ((cam.rotation.toRotationMatrix.transpose.mulVec cam.position).neg).x,
       ((cam.rotation.toRotationMatrix.transpose.mulVec cam.position).neg).y,
       ((cam.rotation.toRotationMatrix.transpose.mulVec cam.position).neg).z] := by
  simp only [bundleRecord, Matrix3f.transpose, Matrix3f.neg, Matrix3f.mulVec, Vector3f.neg,
    List.cons.injEq, and_true, true_and]
  refine ⟨?_, ?_, ?_⟩ <;> ring

theorem fribrRecord_rows (M : Libm) (height : Int) (cam : Camera) :
    fribrRecord M height cam =
      [1 / 2 * (height : ℚ) / M.tan (cam.fovy / 2), 0, 0,
       cam.rotation.toRotationMatrix.transpose.m00,
       -cam.rotation.toRotationMatrix.transpose.m01,
       -cam.rotation.toRotationMatrix.transpose.m02,
       cam.rotation.toRotationMatrix.transpose.m10,
       -cam.rotation.toRotationMatrix.transpose.m11,
       -cam.rotation.toRotationMatrix.transpose.m12,
       cam.rotation.toRotationMatrix.transpose.m20,
       -cam.rotation.toRotationMatrix.transpose.m21,
       -cam.rotation.toRotationMatrix.transpose.m22,
       ((cam.rotation.toRotationMatrix.transpose.mulVec cam.position).neg).x,
       ((cam.rotation.toRotationMatrix.transpose.mulVec cam.position).neg).y,
       ((cam.rotation.toRotationMatrix.transpose.mulVec cam.position).neg).z] := by
  simp only [fribrRecord, fribrConverter, Matrix3f.transpose, Matrix3f.mul, Matrix3f.mulVec,
    Vector3f.neg, List.cons.injEq, and_true, true_and]
  refine ⟨?_, ?_, ?_, ?_, ?_, ?_, ?_, ?_, ?_, ?_, ?_, ?_⟩ <;> ring

/-- C28. `saveAsFRIBRBundle` against `saveAsBundle`: for every camera, with `R` its
rotation matrix and `p` its position, the translation written by
`saveAsFRIBRBundle` is the one written by `saveAsBundle`, `-(Rᵀ p)`; `saveAsBundle`
writes `Rᵀ` row after row, and `saveAsFRIBRBundle` writes `Rᵀ * diag(1, -1, -1)`,
that is the same rows with their second and third columns negated; both write
one such record per keyframe. -/
theorem fribr_against_bundle (M : Libm) (width height : Int) (cam : Camera)
    (r : CameraRecorder) :
    (fribrRecord M height cam).drop 12 = (bundleRecord M height cam).drop 12
      ∧ (bundleRecord M height cam).drop 12
          = [((cam.rotation.toRotationMatrix.transpose.mulVec cam.position).neg).x,
             ((cam.rotation.toRotationMatrix.transpose.mulVec cam.position).neg).y,
             ((cam.rotation.toRotationMatrix.transpose.mulVec cam.position).neg).z]
      ∧ ((bundleRecord M height cam).drop 3).take 9
          = cam.rotation.toRotationMatrix.transpose.rowMajor
      ∧ ((fribrRecord M height cam).drop 3).take 9
          = (cam.rotation.toRotationMatrix.transpose.mul fribrConverter).rowMajor
      ∧ ((fribrRecord M height cam).drop 3).take 9
          = [cam.rotation.toRotationMatrix.transpose.m00,
             -cam.rotation.toRotationMatrix.transpose.m01,
             -cam.rotation.toRotationMatrix.transpose.m02,
             cam.rotation.toRotationMatrix.transpose.m10,
             -cam.rotation.toRotationMatrix.transpose.m11,
             -cam.rotation.toRotationMatrix.transpose.m12,
             cam.rotation.toRotationMatrix.transpose.m20,
             -cam.rotation.toRotationMatrix.transpose.m21,
             -cam.rotation.toRotationMatrix.transpose.m22]
      ∧ (r.saveAsFRIBRBundle M true width height).map (fun out => out.records)
          = some (r._cameras.map (fribrRecord M height)) := by
  rw [fribrRecord_rows, bundleRecord_rows]
  refine ⟨rfl, rfl, rfl, ?_, rfl, rfl⟩
  simp only [List.drop, List.take, Matrix3f.rowMajor, Matrix3f.mul, fribrConverter,
    List.cons.injEq, and_true]
  refine ⟨?_, ?_, ?_, ?_, ?_, ?_, ?_, ?_, ?_⟩ <;> ring

/-! ### The traversal of `interpolate()` -/

theorem interpAdvance_path (s : InteractiveCameraHandler) :
    s.interpAdvance._interpPath = s._interpPath := by
  unfold InteractiveCameraHandler.interpAdvance
  simp only []
  repeat' split
  all_goals rfl

theorem interpAdvance_in_bounds (s : InteractiveCameraHandler) (h : 2 ≤ s._interpPath.length) :
    s.interpAdvance._startCam + 1 < s._interpPath.length := by
  unfold InteractiveCameraHandler.interpAdvance
  simp only []
  by_cases h1 : s._interpFactor = SIBR_INTERPOLATE_FRAMES - 1
  · rw [if_pos h1]
    by_cases h2 : s._startCam + 1 ≥ s._interpPath.length - 1
    · rw [if_pos h2]; show 0 + 1 < s._interpPath.length; omega
    · rw [if_neg h2]; show s._startCam + 1 + 1 < s._interpPath.length; omega
  · rw [if_neg h1]
    by_cases h2 : s._startCam ≥ s._interpPath.length - 1
    · rw [if_pos h2]; show 0 + 1 < s._interpPath.length; omega
    · rw [if_neg h2]; omega

/-- C27, the code at the failing input: a traversal path of one camera, cursor
(0, 0).  `interpolate()` does not return early (the path is not empty), the test
`_startCam >= size - 1` leaves the segment at 0, and the second camera is read at
index 1, which is not below the size of the path. -/
theorem interpolate_reads_past_one_camera_path :
    sampleHandlerOneCamera._interpPath.isEmpty = false
      ∧ sampleHandlerOneCamera._interpPath.length = 1
      ∧ sampleHandlerOneCamera.interpAdvance._startCam = 0
      ∧ ¬ (sampleHandlerOneCamera.interpAdvance._startCam + 1
            < sampleHandlerOneCamera._interpPath.length)
      ∧ sampleHandlerOneCamera._interpPath[sampleHandlerOneCamera.interpAdvance._startCam + 1]?
          = none := by
  have h0 : sampleHandlerOneCamera.interpAdvance._startCam = 0 := by decide
  rw [h0]
  exact ⟨rfl, rfl, rfl, by decide, rfl⟩

theorem interpAdvance_cursor (s : InteractiveCameraHandler) :
    s.interpAdvance._startCam
        = (if s._interpFactor = 29 then
            (if s._startCam + 1 ≥ s._interpPath.length - 1 then 0 else s._startCam + 1)
          else (if s._startCam ≥ s._interpPath.length - 1 then 0 else s._startCam))
      ∧ s.interpAdvance._interpFactor
        = (if s._interpFactor = 29 then 0
          else (if s._startCam ≥ s._interpPath.length - 1 then 0 else s._interpFactor)) := by
  unfold InteractiveCameraHandler.interpAdvance
  have e : SIBR_INTERPOLATE_FRAMES - 1 = 29 := rfl
  simp only [e]
  by_cases h1 : s._interpFactor = 29
  · rw [if_pos h1, if_pos h1, if_pos h1]
    by_cases h2 : s._startCam + 1 ≥ s._interpPath.length - 1
    · rw [if_pos h2, if_pos h2]; exact ⟨rfl, rfl⟩
    · rw [if_neg h2, if_neg h2]; exact ⟨rfl, rfl⟩
  · rw [if_neg h1, if_neg h1, if_neg h1]
    by_cases h2 : s._startCam ≥ s._interpPath.length - 1
    · rw [if_pos h2, if_pos h2, if_pos h2]; exact ⟨rfl, rfl⟩
    · rw [if_neg h2, if_neg h2, if_neg h2]; exact ⟨rfl, rfl⟩

theorem interpolate_of_nonempty (M : Libm) (s : InteractiveCameraHandler)
    (h : s._interpPath.isEmpty = false) :
    (s.interpolate M)._startCam = s.interpAdvance._startCam
      ∧ (s.interpolate M)._interpFactor = s.interpAdvance._interpFactor + 1
      ∧ (s.interpolate M)._interpPath = s._interpPath
      ∧ Camera.SamePose (s.interpolate M)._currentCamera.toCamera
          (Camera.interpolate M
            (s._interpPath.getD s.interpAdvance._startCam default).toCamera
            (s._interpPath.getD (s.interpAdvance._startCam + 1) default).toCamera
            s.interpAdvance.interpK) := by
  unfold InteractiveCameraHandler.interpolate
  rw [h]
  simp only [Bool.false_eq_true, if_false, interpAdvance_path]
  refine ⟨?_, ?_, ?_, ?_, ?_, ?_⟩ <;> trivial

theorem succ_mod_cases (a n : Nat) (hn : 1 ≤ n) :
    (a + 1) % n = if a % n + 1 ≥ n then 0 else a % n + 1 := by
  have hlt : a % n < n := Nat.mod_lt _ (by omega)
  rw [Nat.add_mod]
  by_cases h : a % n + 1 ≥ n
  · rw [if_pos h]
    by_cases h1 : n = 1
    · subst h1; simp [Nat.mod_one]
    · have e1 : 1 % n = 1 := Nat.mod_eq_of_lt (by omega)
      rw [e1]
      have e2 : a % n + 1 = n := by omega
      rw [e2, Nat.mod_self]
  · rw [if_neg h]
    have h1 : 1 < n := by omega
    have e1 : 1 % n = 1 := Nat.mod_eq_of_lt h1
    rw [e1]
    exact Nat.mod_eq_of_lt (by omega)

theorem interpolate_iterate_cursor (M : Libm) (s0 : InteractiveCameraHandler)
    (hN : 2 ≤ s0._interpPath.length) (hc : s0._startCam = 0) (hf : s0._interpFactor = 0)
    (j : Nat) :
    ((InteractiveCameraHandler.interpolate M)^[j] s0)._interpPath = s0._interpPath
      ∧ ((InteractiveCameraHandler.interpolate M)^[j] s0).interpAdvance._startCam
          = (j / 29) % (s0._interpPath.length - 1)
      ∧ ((InteractiveCameraHandler.interpolate M)^[j] s0).interpAdvance._interpFactor
          = j % 29 := by
  induction j with
  | zero =>
    have h := interpAdvance_cursor s0
    rw [hc, hf] at h
    simp only [Function.iterate_zero, id_eq]
    refine ⟨trivial, ?_, ?_⟩
    · rw [h.1, if_neg (by decide), if_neg (by omega)]; simp
    · rw [h.2, if_neg (by decide), if_neg (by omega)]
  | succ j ih =>
    obtain ⟨ip, ic, ifac⟩ := ih
    have hne : ((InteractiveCameraHandler.interpolate M)^[j] s0)._interpPath.isEmpty = false := by
      rw [ip]
      cases hp : s0._interpPath with
      | nil => rw [hp] at hN; simp at hN
      | cons c cs => rfl
    have hi := interpolate_of_nonempty M _ hne
    rw [Function.iterate_succ_apply']
    have h := interpAdvance_cursor
      (((InteractiveCameraHandler.interpolate M)^[j] s0).interpolate M)
    rw [hi.1, hi.2.1, hi.2.2.1, ic, ifac, ip] at h
    refine ⟨hi.2.2.1.trans ip, ?_, ?_⟩
    · rw [h.1]
      have hlt : j / 29 % (s0._interpPath.length - 1) < s0._interpPath.length - 1 :=
        Nat.mod_lt _ (by omega)
      by_cases h28 : j % 29 = 28
      · rw [if_pos (by omega)]
        have e : (j + 1) / 29 = j / 29 + 1 := by omega
        rw [e, succ_mod_cases _ _ (by omega)]
      · rw [if_neg (by omega), if_neg (by omega)]
        have e : (j + 1) / 29 = j / 29 := by omega
        rw [e]
    · rw [h.2]
      have hlt : j / 29 % (s0._interpPath.length - 1) < s0._interpPath.length - 1 :=
        Nat.mod_lt _ (by omega)
      by_cases h28 : j % 29 = 28
      · rw [if_pos (by omega)]; omega
      · rw [if_neg (by omega), if_neg (by omega)]; omega

theorem interpK_of_lt (s : InteractiveCameraHandler) (h : s._interpFactor ≤ 28) :
    s.interpK = max ((s._interpFactor : ℚ) / 30) eps := by
  unfold InteractiveCameraHandler.interpK
  have e : ((SIBR_INTERPOLATE_FRAMES : Nat) : ℚ) = 30 := by
    show ((30 : Nat) : ℚ) = 30
    norm_num
  rw [e]
  apply min_eq_left
  have hq : (s._interpFactor : ℚ) ≤ 28 := by exact_mod_cast h
  apply max_le
  · have : (s._interpFactor : ℚ) / 30 ≤ 28 / 30 := by
      apply div_le_div_of_nonneg_right hq (by norm_num)
    refine le_trans this ?_
    norm_num [eps]
  · norm_num [eps]

/-- C26. In interpolation mode over a path of `N ≥ 2` cameras, starting from the
cursor `(_startCam, _interpFactor) = (0, 0)` and calling `interpolate()` with
nothing else touching the handler: the call number `j + 1` runs on segment
`(j / 29) mod (N - 1)` with step `j mod 29`, so its blend factor is
`max ((j mod 29) / 30, 1e-6)`; both cameras of the segment exist in the path
(the segment index never reaches `N - 1`); the pose it leaves in the current
camera is the interpolation of those two cameras at that factor; and the
cursor used by call `j + 29 * (N - 1) + 1` is the one used by call `j + 1`. -/
theorem interpolate_loops (M : Libm) (s0 : InteractiveCameraHandler)
    (hN : 2 ≤ s0._interpPath.length) (hc : s0._startCam = 0) (hf : s0._interpFactor = 0)
    (j : Nat) :
    ((InteractiveCameraHandler.interpolate M)^[j] s0).interpAdvance._startCam
        = (j / 29) % (s0._interpPath.length - 1)
      ∧ ((InteractiveCameraHandler.interpolate M)^[j] s0).interpAdvance._interpFactor
        = j % 29
      ∧ ((InteractiveCameraHandler.interpolate M)^[j] s0).interpAdvance.interpK
        = max (((j % 29 : Nat) : ℚ) / 30) eps
      ∧ (j / 29) % (s0._interpPath.length - 1) + 1 ≤ s0._interpPath.length - 1
      ∧ (∃ camStart camNext : InputCamera,
          s0._interpPath[(j / 29) % (s0._interpPath.length - 1)]? = some camStart
          ∧ s0._interpPath[(j / 29) % (s0._interpPath.length - 1) + 1]? = some camNext
          ∧ Camera.SamePose
              ((InteractiveCameraHandler.interpolate M)^[j + 1] s0)._currentCamera.toCamera
              (Camera.interpolate M camStart.toCamera camNext.toCamera
                (max (((j % 29 : Nat) : ℚ) / 30) eps)))
      ∧ ((InteractiveCameraHandler.interpolate M)^[j + 29 * (s0._interpPath.length - 1)] s0
            ).interpAdvance._startCam
          = ((InteractiveCameraHandler.interpolate M)^[j] s0).interpAdvance._startCam
      ∧ ((InteractiveCameraHandler.interpolate M)^[j + 29 * (s0._interpPath.length - 1)] s0
            ).interpAdvance._interpFactor
          = ((InteractiveCameraHandler.interpolate M)^[j] s0).interpAdvance._interpFactor := by
  obtain ⟨ip, ic, ifac⟩ := interpolate_iterate_cursor M s0 hN hc hf j
  obtain ⟨_, ic2, ifac2⟩ :=
    interpolate_iterate_cursor M s0 hN hc hf (j + 29 * (s0._interpPath.length - 1))
  have hpos : 0 < s0._interpPath.length - 1 := by omega
  have hlt : j / 29 % (s0._interpPath.length - 1) < s0._interpPath.length - 1 :=
    Nat.mod_lt _ hpos
  have hk : ((InteractiveCameraHandler.interpolate M)^[j] s0).interpAdvance.interpK
      = max (((j % 29 : Nat) : ℚ) / 30) eps := by
    rw [interpK_of_lt _ (by rw [ifac]; omega), ifac]
  have hne : ((InteractiveCameraHandler.interpolate M)^[j] s0)._interpPath.isEmpty = false := by
    rw [ip]
    cases hp : s0._interpPath with
    | nil => rw [hp] at hN; simp at hN
    | cons c cs => rfl
  have hi := interpolate_of_nonempty M _ hne
  refine ⟨ic, ifac, hk, by omega, ?_, ?_, ?_⟩
  · have h1 : j / 29 % (s0._interpPath.length - 1) < s0._interpPath.length := by omega
    have h2 : j / 29 % (s0._interpPath.length - 1) + 1 < s0._interpPath.length := by omega
    refine ⟨s0._interpPath[j / 29 % (s0._interpPath.length - 1)],
      s0._interpPath[j / 29 % (s0._interpPath.length - 1) + 1],
      List.getElem?_eq_getElem h1, List.getElem?_eq_getElem h2, ?_⟩
    rw [Function.iterate_succ_apply']
    have h4 := hi.2.2.2
    rw [ic, hk, ip, List.getD_eq_getElem _ _ h1, List.getD_eq_getElem _ _ h2] at h4
    exact h4
  · rw [ic2, ic, Nat.add_mul_div_left _ _ (by decide : 0 < 29), Nat.add_mod_right]
  · rw [ifac2, ifac, Nat.add_mul_mod_self_left]

/-- C26, witness: a path of three cameras; call number 30 (`j = 29`) runs on
segment 1 with step 0. -/
theorem interpolate_loops_witness :
    2 ≤ sampleHandlerAtSegment0._interpPath.length
      ∧ ((InteractiveCameraHandler.interpolate sampleLibm)^[29]
          sampleHandlerAtSegment0).interpAdvance._startCam = 1
      ∧ ((InteractiveCameraHandler.interpolate sampleLibm)^[29]
          sampleHandlerAtSegment0).interpAdvance._interpFactor = 0 :=
  ⟨by decide,
    (interpolate_loops sampleLibm sampleHandlerAtSegment0 (by decide) rfl rfl 29).1,
    (interpolate_loops sampleLibm sampleHandlerAtSegment0 (by decide) rfl rfl 29).2.1⟩

/-! ### `snapToCamera` -/

theorem snapIndex_of_nonneg (M : Libm) (s : InteractiveCameraHandler) (i : Int)
    (h0 : 0 ≤ i) (hne : 0 < s._interpPath.length)
    (hsz : s._interpPath.length ≤ 4294967296) :
    s.snapIndex M i = (min i ((s._interpPath.length : Int) - 1)).toNat
      ∧ s.snapIndex M i < s._interpPath.length := by
  have hi : i ≠ -1 := by omega
  unfold InteractiveCameraHandler.snapIndex intToUnsigned
  rw [if_neg hi]
  have hlo : 0 ≤ min i ((s._interpPath.length : Int) - 1) := by
    apply le_min h0
    omega
  have hhi : min i ((s._interpPath.length : Int) - 1) < 4294967296 := by
    have := min_le_right i ((s._interpPath.length : Int) - 1)
    omega
  rw [Int.emod_eq_of_lt hlo hhi]
  refine ⟨rfl, ?_⟩
  have := min_le_right i ((s._interpPath.length : Int) - 1)
  omega

theorem snapIndex_neg_one (M : Libm) (s : InteractiveCameraHandler) :
    s.snapIndex M (-1) = intToUnsigned (s.findNearestCamera M s._interpPath) := by
  unfold InteractiveCameraHandler.snapIndex
  rw [if_pos rfl]

/-- C22. The index of `snapToCamera(i)` for a negative `i` other than -1: on a
traversal path of five cameras, `snapToCamera(-5)` computes
`std::min(-5, 4) = -5`, which the conversion to `unsigned int` turns into
4294967291; the index is outside the path and no element of the path stands
there. -/
theorem snapToCamera_negative_index :
    sampleHandlerAtSegment3._interpPath.length = 5
      ∧ sampleHandlerAtSegment3.snapIndex sampleLibm (-5) = 4294967291
      ∧ ¬ (sampleHandlerAtSegment3.snapIndex sampleLibm (-5)
            < sampleHandlerAtSegment3._interpPath.length)
      ∧ sampleHandlerAtSegment3._interpPath[
          sampleHandlerAtSegment3.snapIndex sampleLibm (-5)]? = none := by
  have h : sampleHandlerAtSegment3.snapIndex sampleLibm (-5) = 4294967291 := by
    unfold InteractiveCameraHandler.snapIndex intToUnsigned
    rw [if_neg (by decide)]
    rfl
  refine ⟨rfl, h, ?_, ?_⟩
  · rw [h]; decide
  · rw [h]; rfl

theorem use_playing_clip_planes (M : Libm) (r : CameraRecorder) (cam : Camera)
    (h1 : r._recording = false) (h2 : r._playing = true) (h3 : r._pos < r._cameras.length) :
    (CameraRecorder.use M r cam).2.znear = cam.znear
      ∧ (CameraRecorder.use M r cam).2.zfar = cam.zfar := by
  rw [use_snd_playing M r cam h1 h2 h3]
  cases r._savingVideo <;> cases r._saving <;> exact ⟨rfl, rfl⟩

/-! ### `update`: the previous camera -/

theorem update_previous_eq (M : Libm) (W : World) (K : Controls) (input : Input)
    (con : Console) (deltaTime : ℚ) (viewport : Viewport) (s : InteractiveCameraHandler) :
    (s.update M W K input con deltaTime viewport)._previousCamera
      = { (s.updateBeforeUse M W K input con deltaTime viewport)._currentCamera with
          toCamera :=
            ((s.updateBeforeUse M W K input con deltaTime viewport)._cameraRecorder.use M
              (s.updateBeforeUse M W K input con deltaTime viewport)._currentCamera.toCamera).2 } :=
  rfl

/-- C23 (as amended). Previous camera after a tick: `update` stores as "previous"
the canonical camera as `CameraRecorder.use` left it, so at the end of every tick
the previous camera equals the canonical camera.  With the recorder Recording it
is the canonical camera as it was before `use`; with the recorder neither
Recording nor Playing within its path it is that camera with the output tag
cleared; with the recorder Playing within its path its pose is the one replayed
from the keyframes at the cursor, and only the clip planes and the members of
`InputCamera` are those the canonical camera had before `use`. -/
theorem update_previous_camera (M : Libm) (W : World) (K : Controls) (input : Input)
    (con : Console) (deltaTime : ℚ) (viewport : Viewport) (s : InteractiveCameraHandler) :
    (s.update M W K input con deltaTime viewport)._previousCamera
        = (s.update M W K input con deltaTime viewport)._currentCamera
      ∧ ((s.updateBeforeUse M W K input con deltaTime viewport)._cameraRecorder._recording
            = true →
          (s.update M W K input con deltaTime viewport)._previousCamera
            = (s.updateBeforeUse M W K input con deltaTime viewport)._currentCamera)
      ∧ ((s.updateBeforeUse M W K input con deltaTime viewport)._cameraRecorder._recording
            = false →
          ¬ ((s.updateBeforeUse M W K input con deltaTime viewport)._cameraRecorder._playing
                = true
              ∧ (s.updateBeforeUse M W K input con deltaTime viewport)._cameraRecorder._pos
                < (s.updateBeforeUse M W K input con deltaTime
                    viewport)._cameraRecorder._cameras.length) →
          (s.update M W K input con deltaTime viewport)._previousCamera
            = { (s.updateBeforeUse M W K input con deltaTime viewport)._currentCamera with
                savePath := "", debugVideo := false })
      ∧ ((s.updateBeforeUse M W K input con deltaTime viewport)._cameraRecorder._recording
            = false →
          (s.updateBeforeUse M W K input con deltaTime viewport)._cameraRecorder._playing
            = true →
          (s.updateBeforeUse M W K input con deltaTime viewport)._cameraRecorder._pos
            < (s.updateBeforeUse M W K input con deltaTime
                viewport)._cameraRecorder._cameras.length →
          Camera.SamePose
              (s.update M W K input con deltaTime viewport)._previousCamera.toCamera
              (Camera.interpolate M
                ((s.updateBeforeUse M W K input con deltaTime
                    viewport)._cameraRecorder.advance.camAt
                  (s.updateBeforeUse M W K input con deltaTime
                    viewport)._cameraRecorder.advance.startIndex)
                ((s.updateBeforeUse M W K input con deltaTime
                    viewport)._cameraRecorder.advance.camAt
                  (s.updateBeforeUse M W K input con deltaTime
                    viewport)._cameraRecorder.advance.nextIndex)
                (clampFactor
                  (s.updateBeforeUse M W K input con deltaTime
                    viewport)._cameraRecorder.advance._interp))
            ∧ (s.update M W K input con deltaTime viewport)._previousCamera.znear
                = (s.updateBeforeUse M W K input con deltaTime viewport)._currentCamera.znear
            ∧ (s.update M W K input con deltaTime viewport)._previousCamera.zfar
                = (s.updateBeforeUse M W K input con deltaTime viewport)._currentCamera.zfar
            ∧ (s.update M W K input con deltaTime viewport)._previousCamera._w
                = (s.updateBeforeUse M W K input con deltaTime viewport)._currentCamera._w
            ∧ (s.update M W K input con deltaTime viewport)._previousCamera._h
                = (s.updateBeforeUse M W K input con deltaTime viewport)._currentCamera._h) := by
  have hp := update_previous_eq M W K input con deltaTime viewport s
  generalize s.updateBeforeUse M W K input con deltaTime viewport = b at hp ⊢
  refine ⟨rfl, ?_, ?_, ?_⟩
  · intro h
    rw [hp, use_of_recording M _ _ h]
  · intro h1 h2
    rw [hp, use_of_idle M _ _ h1 h2]
    rfl
  · intro h1 h2 h3
    rw [hp]
    have hc := use_playing_clip_planes M b._cameraRecorder b._currentCamera.toCamera h1 h2 h3
    exact ⟨samePose_use_playing M _ _ h1 h2 h3, hc.1, hc.2, rfl, rfl⟩

/-- C23, witness: a tick with the recorder Recording; the previous camera is the
canonical camera that was handed to `use`. -/
theorem update_previous_camera_witness :
    (sampleRecordingHandler.update sampleLibm sampleWorld sampleControls noKeys ⟨"", 0, 0⟩ 0
        ⟨0, 0⟩)._previousCamera
      = (sampleRecordingHandler.updateBeforeUse sampleLibm sampleWorld sampleControls noKeys
          ⟨"", 0, 0⟩ 0 ⟨0, 0⟩)._currentCamera :=
  (update_previous_camera sampleLibm sampleWorld sampleControls noKeys ⟨"", 0, 0⟩ 0 ⟨0, 0⟩
    sampleRecordingHandler).2.1 rfl

/-- C23, counterexample: the recorder has just been put in playback over
`[camA, camB]` (default speed) and the tick releases no key.  Before `use` the
canonical camera stands at the origin; `use` overwrites it with the pose replayed
from the path, at (2, 0, 0), and that is the camera stored as "previous". -/
theorem update_previous_is_replayed_camera :
    (samplePlayingHandler.updateBeforeUse sampleLibm sampleWorld sampleControls noKeys
        ⟨"", 0, 0⟩ 0 ⟨0, 0⟩)._cameraRecorder.isPlaying = true
      ∧ (samplePlayingHandler.updateBeforeUse sampleLibm sampleWorld sampleControls noKeys
          ⟨"", 0, 0⟩ 0 ⟨0, 0⟩)._currentCamera.position = ⟨0, 0, 0⟩
      ∧ (samplePlayingHandler.update sampleLibm sampleWorld sampleControls noKeys
          ⟨"", 0, 0⟩ 0 ⟨0, 0⟩)._previousCamera.position = ⟨2, 0, 0⟩
      ∧ (samplePlayingHandler.update sampleLibm sampleWorld sampleControls noKeys
          ⟨"", 0, 0⟩ 0 ⟨0, 0⟩)._previousCamera
        ≠ (samplePlayingHandler.updateBeforeUse sampleLibm sampleWorld sampleControls noKeys
            ⟨"", 0, 0⟩ 0 ⟨0, 0⟩)._currentCamera := by
  have hb : samplePlayingHandler.updateBeforeUse sampleLibm sampleWorld sampleControls noKeys
      ⟨"", 0, 0⟩ 0 ⟨0, 0⟩ = samplePlayingHandler := rfl
  have hadv : ((recorderWith [camA, camB]).playback)._interp
      ≥ fl32 (1 - ((recorderWith [camA, camB]).playback)._speed) := by
    show (0 : ℚ) ≥ fl32 (1 - 1)
    rw [fl32_one_sub_one]
  have hpose := samePose_use_playing sampleLibm (recorderWith [camA, camB]).playback
    (default : InputCamera).toCamera rfl rfl (by decide)
  rw [CameraRecorder.advance_of_ge _ hadv] at hpose
  have hS : CameraRecorder.camAt
      { (recorderWith [camA, camB]).playback with
        _interp := 0, _pos := ((recorderWith [camA, camB]).playback)._pos + 1 }
      (CameraRecorder.startIndex
        { (recorderWith [camA, camB]).playback with
          _interp := 0, _pos := ((recorderWith [camA, camB]).playback)._pos + 1 }) = camB := by
    rfl
  have hN : CameraRecorder.camAt
      { (recorderWith [camA, camB]).playback with
        _interp := 0, _pos := ((recorderWith [camA, camB]).playback)._pos + 1 }
      (CameraRecorder.nextIndex
        { (recorderWith [camA, camB]).playback with
          _interp := 0, _pos := ((recorderWith [camA, camB]).playback)._pos + 1 }) = camB := by
    rfl
  rw [hS, hN] at hpose
  have hpos : (samplePlayingHandler.update sampleLibm sampleWorld sampleControls noKeys
      ⟨"", 0, 0⟩ 0 ⟨0, 0⟩)._previousCamera.position = ⟨2, 0, 0⟩ := by
    rw [update_previous_eq, hb]
    show (CameraRecorder.use sampleLibm (recorderWith [camA, camB]).playback
      (default : InputCamera).toCamera).2.position = ⟨2, 0, 0⟩
    rw [hpose.1]
    simp [Camera.interpolate, Vector3f.lerp, lerp, camB]
  refine ⟨rfl, rfl, hpos, ?_⟩
  intro h
  have hx := congrArg (fun c : InputCamera => c.position.x) h
  simp only [] at hx
  rw [hpos, hb] at hx
  revert hx
  show ¬ ((2 : ℚ) = 0)
  norm_num

/-! ### `update`: what the steps leave alone -/

theorem fromCamera_keeps (s : InteractiveCameraHandler) (cam : InputCamera)
    (interpolate updateResolution : Bool) :
    (s.fromCamera cam interpolate updateResolution)._cameraRecorder = s._cameraRecorder
      ∧ (s.fromCamera cam interpolate updateResolution)._supportRecording = s._supportRecording
      ∧ (s.fromCamera cam interpolate updateResolution)._viewport = s._viewport := by
  unfold InteractiveCameraHandler.fromCamera
  simp only []
  repeat' split
  all_goals exact ⟨rfl, rfl, rfl⟩

theorem fromCamera_flag (s : InteractiveCameraHandler) (cam : InputCamera)
    (interpolate updateResolution : Bool) :
    (s.fromCamera cam interpolate updateResolution)._triggerCameraUpdate
      = (s._triggerCameraUpdate || (updateResolution && s._viewport.isEmpty)) := by
  unfold InteractiveCameraHandler.fromCamera
  simp only []
  repeat' split
  all_goals simp_all

theorem updateViewport_keeps (s : InteractiveCameraHandler) (viewport : Viewport) :
    (s.updateViewport viewport)._cameraRecorder = s._cameraRecorder
      ∧ (s.updateViewport viewport)._supportRecording = s._supportRecording := by
  unfold InteractiveCameraHandler.updateViewport
  simp only []
  split <;> split <;>
    first
    | exact ⟨rfl, rfl⟩
    | exact ⟨(fromCamera_keeps _ _ _ _).1, (fromCamera_keeps _ _ _ _).2.1⟩

theorem interpolate_keeps (M : Libm) (s : InteractiveCameraHandler) :
    (s.interpolate M)._cameraRecorder = s._cameraRecorder
      ∧ (s.interpolate M)._viewport = s._viewport
      ∧ (s.interpolate M)._triggerCameraUpdate = s._triggerCameraUpdate := by
  unfold InteractiveCameraHandler.interpolate InteractiveCameraHandler.interpAdvance
  simp only []
  repeat' split
  all_goals exact ⟨rfl, rfl, rfl⟩

theorem modeUpdate_keeps (M : Libm) (K : Controls) (input : Input) (deltaTime : ℚ)
    (s : InteractiveCameraHandler) :
    (s.modeUpdate M K input deltaTime)._cameraRecorder = s._cameraRecorder
      ∧ (s.modeUpdate M K input deltaTime)._viewport = s._viewport
      ∧ (s.modeUpdate M K input deltaTime)._triggerCameraUpdate = s._triggerCameraUpdate := by
  have hi := interpolate_keeps M s
  unfold InteractiveCameraHandler.modeUpdate
  simp only []
  split
  · cases hm : s._currentMode <;> simp only [] <;> split <;>
      first
      | exact ⟨rfl, rfl, rfl⟩
      | exact hi
  · exact ⟨rfl, rfl, rfl⟩

theorem use_cameras_of_not_recording (M : Libm) (r : CameraRecorder) (cam : Camera)
    (h : r._recording = false) :
    (CameraRecorder.use M r cam).1._cameras = r._cameras := by
  rcases use_fst_cases M r cam with e | e | ⟨_, _, _, e | e⟩
  · unfold CameraRecorder.use at e ⊢
    rw [if_neg (by simp [h])] at e ⊢
    split <;> first | rfl | (simp only []; split <;> exact CameraRecorder.advance_cameras r)
  · rw [e]
  · rw [e]; exact CameraRecorder.advance_cameras r
  · rw [e]; exact CameraRecorder.advance_cameras r

/-! ### `update`: the load command -/

theorem keyCommands_load (M : Libm) (W : World) (input : Input) (con : Console)
    (s : InteractiveCameraHandler) (hk : input.reachesLoad = true)
    (hs : s._supportRecording = true) :
    s.keyCommands M W input con
      = { s with _cameraRecorder := InteractiveCameraHandler.loadCommand W con s._cameraRecorder } := by
  unfold Input.reachesLoad at hk
  simp only [Bool.and_eq_true, Bool.not_eq_true', Bool.not_eq_eq_eq_not, Bool.not_true] at hk
  obtain ⟨⟨⟨⟨⟨⟨⟨⟨hB, hV⟩, hY⟩, hSp⟩, hP⟩, hSh⟩, hLA⟩, hLC⟩, hC⟩ := hk
  unfold InteractiveCameraHandler.keyCommands InteractiveCameraHandler.recorderCommands
  simp [hB, hV, hY, hSp, hP, hSh, hLA, hLC, hC, hs]

theorem loadCommand_recording (W : World) (con : Console) (r : CameraRecorder) :
    (InteractiveCameraHandler.loadCommand W con r)._recording = false := rfl

theorem update_load_cameras (M : Libm) (W : World) (K : Controls) (input : Input)
    (con : Console) (deltaTime : ℚ) (viewport : Viewport) (s : InteractiveCameraHandler)
    (hk : input.reachesLoad = true) (hs : s._supportRecording = true) :
    (s.update M W K input con deltaTime viewport)._cameraRecorder._cameras
      = (InteractiveCameraHandler.loadCommand W con s._cameraRecorder)._cameras := by
  have hv := updateViewport_keeps s viewport
  have hkc := keyCommands_load M W input con (s.updateViewport viewport) hk (hv.2.trans hs)
  have hm := modeUpdate_keeps M K input deltaTime
    ((s.updateViewport viewport).keyCommands M W input con)
  have hrec : (s.updateBeforeUse M W K input con deltaTime viewport)._cameraRecorder
      = InteractiveCameraHandler.loadCommand W con s._cameraRecorder := by
    unfold InteractiveCameraHandler.updateBeforeUse
    rw [hm.1, hkc]
    show InteractiveCameraHandler.loadCommand W con (s.updateViewport viewport)._cameraRecorder = _
    rw [hv.1]
  show (CameraRecorder.use M
      (s.updateBeforeUse M W K input con deltaTime viewport)._cameraRecorder
      (s.updateBeforeUse M W K input con deltaTime viewport)._currentCamera.toCamera).1._cameras
    = _
  rw [use_cameras_of_not_recording M _ _ (by rw [hrec]; rfl), hrec]

theorem loadCommand_cameras (W : World) (con : Console) (r : CameraRecorder) :
    (InteractiveCameraHandler.loadCommand W con r)._cameras
      = if W.extension con.line = ".out" then
          (r.reset.loadBundle W con.line con.w con.h)._cameras
        else (r.reset.load W.layout (W.binaryFile con.line)).2._cameras := by
  unfold InteractiveCameraHandler.loadCommand
  simp only []
  split <;> rfl

/-- C24 (as amended). Load dispatch in `update`: on a tick whose input arrives at
the load command (LeftShift + C) of a handler that supports recording, the
recorder's path after `update` is, for a file name of extension ".out" or ".path",
the path after `reset()` followed by `safeLoad(filename, w, h)` (".out" goes to
`loadBundle`, ".path" to `load`); for every other extension the file is handed to
`load` as well, so the path is the one `reset()` followed by `load(filename)`
gives, which need not be empty. -/
theorem update_load_dispatch (M : Libm) (W : World) (K : Controls) (input : Input)
    (con : Console) (deltaTime : ℚ) (viewport : Viewport) (s : InteractiveCameraHandler)
    (hk : input.reachesLoad = true) (hs : s._supportRecording = true) :
    (W.extension con.line = ".out" →
        (s.update M W K input con deltaTime viewport)._cameraRecorder._cameras
            = (s._cameraRecorder.reset.safeLoad W con.line con.w con.h).2._cameras
          ∧ (s.update M W K input con deltaTime viewport)._cameraRecorder._cameras
            = (s._cameraRecorder.reset.loadBundle W con.line con.w con.h)._cameras)
      ∧ (W.extension con.line = ".path" →
        (s.update M W K input con deltaTime viewport)._cameraRecorder._cameras
            = (s._cameraRecorder.reset.safeLoad W con.line con.w con.h).2._cameras
          ∧ (s.update M W K input con deltaTime viewport)._cameraRecorder._cameras
            = (s._cameraRecorder.reset.load W.layout (W.binaryFile con.line)).2._cameras)
      ∧ (W.extension con.line ≠ ".out" →
        (s.update M W K input con deltaTime viewport)._cameraRecorder._cameras
          = (s._cameraRecorder.reset.load W.layout (W.binaryFile con.line)).2._cameras) := by
  rw [update_load_cameras M W K input con deltaTime viewport s hk hs, loadCommand_cameras]
  refine ⟨?_, ?_, ?_⟩
  · intro h
    unfold CameraRecorder.safeLoad
    rw [if_pos h, if_pos h]
    exact ⟨rfl, rfl⟩
  · intro h
    have hne : W.extension con.line ≠ ".out" := by rw [h]; decide
    unfold CameraRecorder.safeLoad
    rw [if_neg hne, if_neg hne, if_pos h]
    exact ⟨rfl, rfl⟩
  · intro h
    rw [if_neg h]

theorem load_scene_xyz (r : CameraRecorder) :
    (r.load sampleNativeWorld.layout (sampleNativeWorld.binaryFile "scene.xyz")).2._cameras
      = [camA.stored, camB.stored] := by
  have h : sampleNativeWorld.binaryFile "scene.xyz"
      = some (CameraRecorder.save sampleLayout (recorderWith [camA, camB])) := by
    unfold sampleNativeWorld
    simp only []
    exact if_pos trivial
  rw [h]
  show (CameraRecorder.load sampleLayout _ r).2._cameras = _
  rw [load_save_eq sampleLayout (recorderWith [camA, camB]) r (by decide) sample_representable]
  rfl

/-- C24, witness: the load command on the file "scene.xyz". -/
theorem update_load_dispatch_witness :
    (sampleHandler.update sampleLibm sampleNativeWorld sampleControls shiftC
        ⟨"scene.xyz", 800, 600⟩ 0 ⟨0, 0⟩)._cameraRecorder._cameras
      = (sampleHandler._cameraRecorder.reset.load sampleNativeWorld.layout
          (sampleNativeWorld.binaryFile "scene.xyz")).2._cameras :=
  (update_load_dispatch sampleLibm sampleNativeWorld sampleControls shiftC
    ⟨"scene.xyz", 800, 600⟩ 0 ⟨0, 0⟩ sampleHandler rfl rfl).2.2 (by decide)

/-- C24, counterexample: the file "scene.xyz" holds the native path `[camA, camB]`.
Its extension is ".xyz", neither ".out" nor ".path".  The load command of `update`
hands it to `load`, and the recorder's path afterwards has those two keyframes;
`reset()` followed by `safeLoad` loads nothing and leaves the path empty. -/
theorem update_load_other_extension :
    sampleNativeWorld.extension "scene.xyz" = ".xyz"
      ∧ (sampleHandler.update sampleLibm sampleNativeWorld sampleControls shiftC
          ⟨"scene.xyz", 800, 600⟩ 0 ⟨0, 0⟩)._cameraRecorder._cameras
        = [camA.stored, camB.stored]
      ∧ (sampleHandler._cameraRecorder.reset.safeLoad sampleNativeWorld "scene.xyz"
          800 600).2._cameras = []
      ∧ (sampleHandler.update sampleLibm sampleNativeWorld sampleControls shiftC
          ⟨"scene.xyz", 800, 600⟩ 0 ⟨0, 0⟩)._cameraRecorder._cameras
        ≠ (sampleHandler._cameraRecorder.reset.safeLoad sampleNativeWorld "scene.xyz"
            800 600).2._cameras := by
  have hext : sampleNativeWorld.extension "scene.xyz" = ".xyz" := by decide
  have h1 : (sampleHandler.update sampleLibm sampleNativeWorld sampleControls shiftC
      ⟨"scene.xyz", 800, 600⟩ 0 ⟨0, 0⟩)._cameraRecorder._cameras
      = [camA.stored, camB.stored] := by
    rw [update_load_cameras sampleLibm sampleNativeWorld sampleControls shiftC
      ⟨"scene.xyz", 800, 600⟩ 0 ⟨0, 0⟩ sampleHandler rfl rfl, loadCommand_cameras]
    rw [if_neg (by decide)]
    exact load_scene_xyz _
  have h2 : (sampleHandler._cameraRecorder.reset.safeLoad sampleNativeWorld "scene.xyz"
      800 600).2._cameras = [] := by
    unfold CameraRecorder.safeLoad
    rw [if_neg (by decide), if_neg (by decide)]
    rfl
  refine ⟨hext, h1, h2, ?_⟩
  rw [h1, h2]
  exact List.cons_ne_nil _ _

/-! ### `update`: the deferred camera update -/

theorem flagKept_of_eq (s t : InteractiveCameraHandler) (hv : t._viewport = s._viewport)
    (hf : t._triggerCameraUpdate = s._triggerCameraUpdate) :
    InteractiveCameraHandler.FlagKept s t :=
  ⟨hv, fun h => hf.trans h, fun _ => hf⟩

theorem flagKept_trans (s t u : InteractiveCameraHandler)
    (h1 : InteractiveCameraHandler.FlagKept s t) (h2 : InteractiveCameraHandler.FlagKept t u) :
    InteractiveCameraHandler.FlagKept s u := by
  obtain ⟨a1, b1, c1⟩ := h1
  obtain ⟨a2, b2, c2⟩ := h2
  refine ⟨a2.trans a1, fun h => b2 (b1 h), fun h => ?_⟩
  rw [c2 (by rw [a1]; exact h), c1 h]

theorem flagKept_fromCamera (s : InteractiveCameraHandler) (cam : InputCamera)
    (interpolate updateResolution : Bool) :
    InteractiveCameraHandler.FlagKept s (s.fromCamera cam interpolate updateResolution) := by
  refine ⟨(fromCamera_keeps s cam interpolate updateResolution).2.2, ?_, ?_⟩
  · intro h
    rw [fromCamera_flag, h]
    rfl
  · intro h
    rw [fromCamera_flag, h]
    simp

theorem flagKept_switchMode (s : InteractiveCameraHandler) (mode : InteractionMode) :
    InteractiveCameraHandler.FlagKept s (s.switchMode mode) := by
  unfold InteractiveCameraHandler.switchMode
  split
  · exact flagKept_of_eq s s rfl rfl
  · exact flagKept_fromCamera { s with _currentMode := mode } _ _ _

theorem flagKept_snapToCamera (M : Libm) (s : InteractiveCameraHandler) (i : Int) :
    InteractiveCameraHandler.FlagKept s (s.snapToCamera M i) := by
  unfold InteractiveCameraHandler.snapToCamera
  split
  · exact flagKept_of_eq s s rfl rfl
  · exact flagKept_fromCamera s _ _ _

theorem flagKept_recorderCommands (W : World) (input : Input) (con : Console)
    (s : InteractiveCameraHandler) :
    InteractiveCameraHandler.FlagKept s (s.recorderCommands W input con) := by
  unfold InteractiveCameraHandler.recorderCommands
  simp only []
  repeat' split
  all_goals exact flagKept_of_eq _ _ rfl rfl

theorem flagKept_keyCommands (M : Libm) (W : World) (input : Input) (con : Console)
    (s : InteractiveCameraHandler) :
    InteractiveCameraHandler.FlagKept s (s.keyCommands M W input con) := by
  unfold InteractiveCameraHandler.keyCommands
  repeat' split
  all_goals first
    | exact flagKept_switchMode s _
    | exact flagKept_snapToCamera M s _
    | exact flagKept_recorderCommands W input con s
    | exact flagKept_of_eq _ _ rfl rfl

theorem flagKept_afterViewport (M : Libm) (W : World) (K : Controls) (input : Input)
    (con : Console) (deltaTime : ℚ) (viewport : Viewport) (s : InteractiveCameraHandler) :
    InteractiveCameraHandler.FlagKept (s.updateViewport viewport)
      (s.update M W K input con deltaTime viewport) := by
  have hk := flagKept_keyCommands M W input con (s.updateViewport viewport)
  have hm := modeUpdate_keeps M K input deltaTime
    ((s.updateViewport viewport).keyCommands M W input con)
  exact flagKept_trans _ _ _ hk (flagKept_of_eq _ _ hm.2.1 hm.2.2)

theorem fromCamera_resolution (s : InteractiveCameraHandler) (cam : InputCamera)
    (interpolate : Bool) (h : s._viewport.isEmpty = false) :
    (s.fromCamera cam interpolate true)._currentCamera._w = floatToUint s._viewport.finalWidth
      ∧ (s.fromCamera cam interpolate true)._currentCamera._h
          = floatToUint s._viewport.finalHeight
      ∧ (s.fromCamera cam interpolate true)._currentCamera.aspect
          = s._viewport.finalWidth / s._viewport.finalHeight := by
  unfold InteractiveCameraHandler.fromCamera
  simp only [h, if_true, Bool.false_eq_true, if_false]
  repeat' split
  all_goals exact ⟨rfl, rfl, rfl⟩

theorem updateViewport_spec (s : InteractiveCameraHandler) (viewport : Viewport) :
    (viewport.isEmpty = false → (s.updateViewport viewport)._viewport = viewport)
      ∧ (viewport.isEmpty = true → (s.updateViewport viewport)._viewport = s._viewport)
      ∧ ((s.updateViewport viewport)._viewport.isEmpty = false →
          (s.updateViewport viewport)._triggerCameraUpdate = false)
      ∧ ((s.updateViewport viewport)._viewport.isEmpty = true →
          (s.updateViewport viewport)._triggerCameraUpdate = s._triggerCameraUpdate)
      ∧ (s._triggerCameraUpdate = true → viewport.isEmpty = false →
          (s.updateViewport viewport)._currentCamera._w = floatToUint viewport.finalWidth
            ∧ (s.updateViewport viewport)._currentCamera._h
                = floatToUint viewport.finalHeight
            ∧ (s.updateViewport viewport)._currentCamera.aspect
                = viewport.finalWidth / viewport.finalHeight) := by
  have key : ∀ s0 : InteractiveCameraHandler,
      s0 = (if !viewport.isEmpty then { s with _viewport := viewport } else s) →
      s.updateViewport viewport
        = (if s0._triggerCameraUpdate && !s0._viewport.isEmpty then
            { s0.fromCamera s0._currentCamera false true with _triggerCameraUpdate := false }
          else s0) := by
    intro s0 h0
    subst h0
    rfl
  have hs0 : ∀ s0 : InteractiveCameraHandler,
      s0 = (if !viewport.isEmpty then { s with _viewport := viewport } else s) →
      s0._triggerCameraUpdate = s._triggerCameraUpdate
        ∧ (viewport.isEmpty = false → s0._viewport = viewport)
        ∧ (viewport.isEmpty = true → s0._viewport = s._viewport) := by
    intro s0 h0
    subst h0
    rcases Bool.eq_false_or_eq_true viewport.isEmpty with hv | hv
    · rw [hv]
      exact ⟨rfl, fun h => absurd h (by decide), fun _ => rfl⟩
    · rw [hv]
      exact ⟨rfl, fun _ => rfl, fun h => absurd h (by decide)⟩
  rw [key _ rfl]
  obtain ⟨h0f, h0n, h0e⟩ := hs0 _ rfl
  generalize (if !viewport.isEmpty then { s with _viewport := viewport } else s) = s0
    at h0f h0n h0e ⊢
  have hk := fromCamera_keeps s0 s0._currentCamera false true
  rcases Bool.eq_false_or_eq_true s0._triggerCameraUpdate with hf | hf
  · rcases Bool.eq_false_or_eq_true s0._viewport.isEmpty with he | he
    · have hc : (s0._triggerCameraUpdate && !s0._viewport.isEmpty) = false := by
        rw [hf, he]; rfl
      rw [hc]
      simp only [Bool.false_eq_true, if_false]
      refine ⟨h0n, h0e, ?_, fun _ => h0f, ?_⟩
      · intro h; rw [he] at h; exact absurd h (by decide)
      · intro _ hv
        rw [h0n hv] at he
        rw [he] at hv
        exact absurd hv (by decide)
    · have hc : (s0._triggerCameraUpdate && !s0._viewport.isEmpty) = true := by
        rw [hf, he]; rfl
      rw [hc]
      simp only [if_true]
      have hr := fromCamera_resolution s0 s0._currentCamera false he
      refine ⟨fun hv => hk.2.2.trans (h0n hv), fun hv => hk.2.2.trans (h0e hv),
        fun _ => trivial, ?_, ?_⟩
      · intro h
        have h2 : s0._viewport.isEmpty = true := by rw [← hk.2.2]; exact h
        rw [he] at h2
        exact absurd h2 (by decide)
      · intro _ hv
        rw [h0n hv] at hr
        exact hr
  · have hc : (s0._triggerCameraUpdate && !s0._viewport.isEmpty) = false := by
      rw [hf]; rfl
    rw [hc]
    simp only [Bool.false_eq_true, if_false]
    refine ⟨h0n, h0e, fun _ => hf, fun _ => h0f, ?_⟩
    intro h
    rw [← h0f, hf] at h
    exact absurd h (by decide)

theorem update_flag_clear (M : Libm) (W : World) (K : Controls) (input : Input)
    (con : Console) (deltaTime : ℚ) (viewport : Viewport) (s : InteractiveCameraHandler)
    (h : (s.updateViewport viewport)._viewport.isEmpty = false) :
    (s.update M W K input con deltaTime viewport)._triggerCameraUpdate = false := by
  have fk := flagKept_afterViewport M W K input con deltaTime viewport s
  rw [fk.2.2 h]
  exact (updateViewport_spec s viewport).2.2.1 h

theorem updateViewport_nonempty_of_stored (s : InteractiveCameraHandler) (viewport : Viewport)
    (h : s._viewport.isEmpty = false) :
    (s.updateViewport viewport)._viewport.isEmpty = false := by
  have sp := updateViewport_spec s viewport
  rcases Bool.eq_false_or_eq_true viewport.isEmpty with hv | hv
  · rw [sp.2.1 hv]; exact h
  · rw [sp.1 hv]; exact hv

theorem updateViewport_of_empty (s : InteractiveCameraHandler) (viewport : Viewport)
    (hv : viewport.isEmpty = true) :
    s.updateViewport viewport
      = if s._triggerCameraUpdate && !s._viewport.isEmpty then
          { s.fromCamera s._currentCamera false true with _triggerCameraUpdate := false }
        else s := by
  unfold InteractiveCameraHandler.updateViewport
  rw [hv]
  rfl

theorem updateViewport_of_nonempty (s : InteractiveCameraHandler) (viewport : Viewport)
    (hv : viewport.isEmpty = false) :
    s.updateViewport viewport
      = if s._triggerCameraUpdate then
          { ({ s with _viewport := viewport } : InteractiveCameraHandler).fromCamera
              s._currentCamera false true with _triggerCameraUpdate := false }
        else { s with _viewport := viewport } := by
  unfold InteractiveCameraHandler.updateViewport
  rw [hv]
  rcases Bool.eq_false_or_eq_true s._triggerCameraUpdate with hf | hf
  · simp only [Bool.not_false, if_true, hf, hv, Bool.and_self]
  · simp only [Bool.not_false, if_true, hf, Bool.false_and, Bool.false_eq_true, if_false]

/-- C25 (as amended). The deferred resolution update.  `fromCamera` sets the
deferred flag exactly when it is called with `updateResolution` while the stored
viewport is empty, and never clears it.  An `update` that starts with the flag
clear ends with it set only if the stored viewport is empty at its end.  Once set,
the flag stays set through every `update` called with an empty viewport while the
stored viewport is empty as well.  An `update` called with a non-empty viewport
stores that viewport and ends with the flag clear; so does every `update` of a
handler whose stored viewport is already non-empty, whatever viewport it is called
with.  When the flag is set, the head of an `update` that finds a non-empty
viewport (the one it is called with, or else the one stored earlier) runs
`fromCamera(_currentCamera, false, true)` on it: the image size and the aspect
ratio of the canonical camera are re-derived from that viewport, and the flag is
cleared. -/
theorem deferred_update (M : Libm) (W : World) (K : Controls) (input : Input)
    (con : Console) (deltaTime : ℚ) (viewport : Viewport) (s : InteractiveCameraHandler)
    (cam : InputCamera) (interpolate updateResolution : Bool) :
    (s.fromCamera cam interpolate updateResolution)._triggerCameraUpdate
        = (s._triggerCameraUpdate || (updateResolution && s._viewport.isEmpty))
      ∧ (s._triggerCameraUpdate = false →
          (s.update M W K input con deltaTime viewport)._triggerCameraUpdate = true →
          (s.update M W K input con deltaTime viewport)._viewport.isEmpty = true)
      ∧ (s._triggerCameraUpdate = true → s._viewport.isEmpty = true →
          viewport.isEmpty = true →
          (s.update M W K input con deltaTime viewport)._triggerCameraUpdate = true
            ∧ (s.update M W K input con deltaTime viewport)._viewport.isEmpty = true)
      ∧ (viewport.isEmpty = false →
          (s.update M W K input con deltaTime viewport)._triggerCameraUpdate = false
            ∧ (s.update M W K input con deltaTime viewport)._viewport = viewport)
      ∧ (s._viewport.isEmpty = false →
          (s.update M W K input con deltaTime viewport)._triggerCameraUpdate = false)
      ∧ (s._triggerCameraUpdate = true → viewport.isEmpty = false →
          (s.updateViewport viewport)._currentCamera._w = floatToUint viewport.finalWidth
            ∧ (s.updateViewport viewport)._currentCamera._h
                = floatToUint viewport.finalHeight
            ∧ (s.updateViewport viewport)._currentCamera.aspect
                = viewport.finalWidth / viewport.finalHeight
            ∧ (s.updateViewport viewport)._triggerCameraUpdate = false
            ∧ s.updateViewport viewport
                = { ({ s with _viewport := viewport } : InteractiveCameraHandler).fromCamera
                      s._currentCamera false true with _triggerCameraUpdate := false })
      ∧ (s._triggerCameraUpdate = true → viewport.isEmpty = true →
          s._viewport.isEmpty = false →
          (s.updateViewport viewport)._currentCamera._w = floatToUint s._viewport.finalWidth
            ∧ (s.updateViewport viewport)._currentCamera._h
                = floatToUint s._viewport.finalHeight
            ∧ (s.updateViewport viewport)._currentCamera.aspect
                = s._viewport.finalWidth / s._viewport.finalHeight
            ∧ (s.updateViewport viewport)._triggerCameraUpdate = false
            ∧ s.updateViewport viewport
                = { s.fromCamera s._currentCamera false true with
                    _triggerCameraUpdate := false }) := by
  have fk := flagKept_afterViewport M W K input con deltaTime viewport s
  have sp := updateViewport_spec s viewport
  refine ⟨fromCamera_flag s cam interpolate updateResolution, ?_, ?_, ?_, ?_, ?_, ?_⟩
  · intro _ hU
    rcases Bool.eq_false_or_eq_true
      (s.update M W K input con deltaTime viewport)._viewport.isEmpty with he | he
    · exact he
    · rw [fk.1] at he
      rw [update_flag_clear M W K input con deltaTime viewport s he] at hU
      exact absurd hU (by decide)
  · intro hf he hv
    have h1 : (s.updateViewport viewport)._viewport.isEmpty = true := by
      rw [sp.2.1 hv]; exact he
    refine ⟨fk.2.1 ((sp.2.2.2.1 h1).trans hf), ?_⟩
    rw [fk.1]; exact h1
  · intro hv
    have h1 : (s.updateViewport viewport)._viewport.isEmpty = false := by
      rw [sp.1 hv]; exact hv
    exact ⟨update_flag_clear M W K input con deltaTime viewport s h1, fk.1.trans (sp.1 hv)⟩
  · intro h
    exact update_flag_clear M W K input con deltaTime viewport s
      (updateViewport_nonempty_of_stored s viewport h)
  · intro hf hv
    have h1 : (s.updateViewport viewport)._viewport.isEmpty = false := by
      rw [sp.1 hv]; exact hv
    have hc := sp.2.2.2.2 hf hv
    refine ⟨hc.1, hc.2.1, hc.2.2, sp.2.2.1 h1, ?_⟩
    rw [updateViewport_of_nonempty s viewport hv, if_pos hf]
  · intro hf hv he
    have e : s.updateViewport viewport
        = { s.fromCamera s._currentCamera false true with _triggerCameraUpdate := false } := by
      rw [updateViewport_of_empty s viewport hv, hf, he]
      rfl
    have hr := fromCamera_resolution s s._currentCamera false he
    rw [e]
    exact ⟨hr.1, hr.2.1, hr.2.2, rfl, rfl⟩

/-- C25, witness: `setup` without a viewport sets the flag; the next `update`, called
with a viewport of 800 by 600, ends with the flag clear and that viewport stored.
With a viewport of 800 by 600 stored by a second `setup`, the head of an `update`
called with an empty viewport derives the image width from the stored viewport. -/
theorem deferred_update_witness :
    (sampleHandler.setup default ⟨0, 0⟩ none)._triggerCameraUpdate = true
      ∧ (((sampleHandler.setup default ⟨0, 0⟩ none).update sampleLibm sampleWorld
            sampleControls noKeys ⟨"", 0, 0⟩ 0 ⟨800, 600⟩)._triggerCameraUpdate = false
          ∧ ((sampleHandler.setup default ⟨0, 0⟩ none).update sampleLibm sampleWorld
            sampleControls noKeys ⟨"", 0, 0⟩ 0 ⟨800, 600⟩)._viewport = ⟨800, 600⟩)
      ∧ (sampleDeferredHandler.updateViewport ⟨0, 0⟩)._currentCamera._w
          = floatToUint sampleDeferredHandler._viewport.finalWidth :=
  ⟨rfl,
    (deferred_update sampleLibm sampleWorld sampleControls noKeys ⟨"", 0, 0⟩ 0 ⟨800, 600⟩
      (sampleHandler.setup default ⟨0, 0⟩ none) default false false).2.2.2.1 rfl,
    ((deferred_update sampleLibm sampleWorld sampleControls noKeys ⟨"", 0, 0⟩ 0 ⟨0, 0⟩
      sampleDeferredHandler default false false).2.2.2.2.2.2 rfl rfl rfl).1⟩

/-- C25, counterexample: `setup` is called without a viewport (the flag is set), then
again with a viewport of 800 by 600 (`fromCamera` does not clear the flag).  The
next `update` is called with an empty viewport, and it ends with the flag clear:
the stored viewport is not empty, so the deferred update runs. -/
theorem deferred_flag_cleared_with_empty_viewport :
    sampleDeferredHandler._triggerCameraUpdate = true
      ∧ (⟨0, 0⟩ : Viewport).isEmpty = true
      ∧ (sampleDeferredHandler.update sampleLibm sampleWorld sampleControls noKeys
          ⟨"", 0, 0⟩ 0 ⟨0, 0⟩)._triggerCameraUpdate = false :=
  ⟨rfl, rfl,
    update_flag_clear sampleLibm sampleWorld sampleControls noKeys ⟨"", 0, 0⟩ 0 ⟨0, 0⟩
      sampleDeferredHandler (updateViewport_nonempty_of_stored _ _ rfl)⟩

end sibr
